import Mathlib

/-!
Amor-cms: the transformer and its mapping engine.

A shallow embedding of `AmorAbstractTransformer.js`, of the factory in
`AmorFactory.js`, of the model and the auth handlers in `AmorModel.js` and of the
two controller classes (with the pieces of `Examples.js` they are used from), and
the properties of them that the specification states.

JavaScript objects become structures, a synchronous call that may throw returns
`Except JsError _`, an `async` function returns a `Promise`, and a method that
works on `this` takes the transformer and returns the transformer it leaves behind.
-/

set_option autoImplicit false

namespace Amor

/-! ## Data model -/

/-- A JSON document as delivered by a third-party source. -/
inductive Json where
  | null
  | bool (b : Bool)
  | num (n : Int)
  | str (s : String)
  | arr (items : List Json)
  | obj (fields : List (String × Json))

/-- The content-object: amorID (integer) to amorValue (string), in insertion order. -/
abbrev ContentTable := List (Nat × String)

/-- A value of the mappings-object: one amorID or an array of amorIDs. -/
inductive MappingValue where
  | single (amorID : Nat)
  | many (amorIDs : List Nat)
  deriving DecidableEq, Repr

/-- The mappings-object: htmlID (string) to amorID(s), in insertion order. -/
abbrev MappingsTable := List (String × MappingValue)

/-- The two tables of the Amor schema. -/
structure Model where
  content : ContentTable
  mappings : MappingsTable
  deriving DecidableEq, Repr

/-- The amorIDs a mapping value refers to. -/
def MappingValue.amorIDs : MappingValue → List Nat
  | .single k => [k]
  | .many ks => ks

/-- The keys of the content-object. -/
def ContentTable.keys (c : ContentTable) : List Nat := c.map Prod.fst

/-- The keys of the mappings-object. -/
def MappingsTable.keys (m : MappingsTable) : List String := m.map Prod.fst

/-- The restriction of the schema: the mappings-object has as its values only keys of
the content-object. -/
def Model.referencesResolved (m : Model) : Prop :=
  ∀ e ∈ m.mappings, ∀ k ∈ e.2.amorIDs, k ∈ m.content.keys

instance (m : Model) : Decidable m.referencesResolved := by
  unfold Model.referencesResolved; infer_instance

/-! ## Errors, completions and promises -/

/-- Entries of `AmorError.info` that the call sites name. -/
inductive ErrorInfo where
  | CONSTRUCTOR_ERROR
  | TRANSFORMER_MAPPINGS_ERROR
  deriving DecidableEq, Repr

/-- The property name of an entry of `AmorError.info`. -/
def ErrorInfo.name : ErrorInfo → String
  | .CONSTRUCTOR_ERROR => "CONSTRUCTOR_ERROR"
  | .TRANSFORMER_MAPPINGS_ERROR => "TRANSFORMER_MAPPINGS_ERROR"

/-- An `AmorError` as a call site describes it: `new AmorError(message)`,
`new AmorError(errObj)` with `errObj = {code, message, throwingClass}`, or
`AmorError.throwNew(info, args, throwingClass)`. It is the error the call means to
throw; with the class `AmorError` of `AmorFactory.js` no call produces one, see
`AmorError.constructor` and `AmorError.throwNew`. -/
inductive AmorError where
  | ofMessage (message : String)
  | ofErrObj (code : Nat) (message : String) (throwingClass : String)
  | thrownNew (info : ErrorInfo) (args : List String) (throwingClass : String)
  deriving DecidableEq, Repr

/-- What a JavaScript `throw` can carry here: an `AmorError`, a TypeError or a
ReferenceError of the language, or a plain `Error` of a library. -/
inductive JsError where
  | amorError (e : AmorError)
  | typeError (message : String)
  | referenceError (message : String)
  | error (message : String)
  deriving DecidableEq, Repr

/-- The settled state of the promise an `async` function returns. -/
inductive Promise (α : Type) where
  | fulfilled (value : α)
  | rejected (error : JsError)
  deriving DecidableEq, Repr

/-- The promise an `async` function returns for the completion of its body. -/
def Promise.ofCompletion {α : Type} : Except JsError α → Promise α
  | .ok value => .fulfilled value
  | .error e => .rejected e

/-- The message of the ReferenceError for a derived constructor that returns without
having called `super()`. -/
def AmorError.superNotCalled : String :=
  "Must call super constructor in derived class before accessing 'this' or returning from derived constructor"

/-- The expression `new AmorError(errorInput)`. The class is declared in
`AmorFactory.js` as `AmorError extends Error` with a constructor whose body is empty: it
never calls `super()`, so returning from it throws a ReferenceError, and nothing of
the input is stored. -/
def AmorError.constructor (_errorInput : AmorError) : Except JsError AmorError :=
  .error (.referenceError AmorError.superNotCalled)

/-- The statement `throw new AmorError(errorInput)`: the error is constructed first,
and what the construction throws is what leaves the statement. -/
def AmorError.throwConstructed {α : Type} (errorInput : AmorError) : Except JsError α :=
  match AmorError.constructor errorInput with
  | .ok e => .error (.amorError e)
  | .error r => .error r

/-- The call `AmorError.throwNew(AmorError.info.X, args, throwingClass)`. The class
`AmorError` of `AmorFactory.js` declares neither a static `info` nor a static
`throwNew`, and `Error` has neither: `AmorError.info` is `undefined`, so evaluating the
first argument throws a TypeError before anything is called. -/
def AmorError.throwNew {α : Type} (info : ErrorInfo) (_args : List String)
    (_throwingClass : String) : Except JsError α :=
  .error (.typeError ("Cannot read properties of undefined (reading '" ++ info.name ++ "')"))

/-! ## Collaborators -/

/-- An object handed in as `cms`, or found in a controller's `cms` attribute, as it is
when the object is read: its prototype chain (own class first) and the own properties
of its `config` object that the factory and the model read (`controller`,
`authHandler`, `supabaseUrl`, `supabaseKey`), whose values are strings. -/
structure Cms where
  classChain : List String
  config : List (String × String)
  deriving DecidableEq, Repr

/-- An object handed in as controller. `AmorAbstractController` is not defined under
src, so the object is described by what the transformer, the factory and the
controller classes read from it or write to it: its prototype chain (own class first),
`locale`, `model` and `cms` (`none` for `undefined`), and the `___amorType` that
`AmorWebSpaceController` assigns. -/
structure Controller where
  classChain : List String
  locale : String
  model : Option Model
  cms : Option Cms
  amorType : Option String
  deriving DecidableEq, Repr

/-- What `createClient` of the supabase library returns: the client for a URL and a
key. The library is not part of the repository; the client is described by the two
arguments it was created from. -/
structure SupabaseClient where
  supabaseUrl : Option String
  supabaseKey : Option String
  deriving DecidableEq, Repr

/-- An object handed in as authHandler: its prototype chain, the controller that
`AmorAbstractAuthHandler`'s constructor stores in it, and the client that
`SupabaseAuthHandler`'s constructor stores in `supabase`. -/
structure AuthHandler where
  classChain : List String
  controller : Option Controller
  supabase : Option SupabaseClient
  deriving DecidableEq, Repr

/-- The test `x instanceof cls` on a prototype chain. -/
def instanceOf (classChain : List String) (cls : String) : Bool :=
  classChain.contains cls

/-- The test `controller instanceof AmorAbstractController`; `none` is `undefined`/`null`. -/
def isAbstractController : Option Controller → Bool
  | some c => instanceOf c.classChain "AmorAbstractController"
  | none => false

/-- The test `cms instanceof AmorModel`; `none` is `undefined`/`null`. -/
def isAmorModel : Option Cms → Bool
  | some c => instanceOf c.classChain "AmorModel"
  | none => false

/-- The test `authHandler instanceof AmorAbstractAuthHandler`. -/
def isAbstractAuthHandler : Option AuthHandler → Bool
  | some a => instanceOf a.classChain "AmorAbstractAuthHandler"
  | none => false

/-- The text of `x?.constructor?.name` inside a template literal. -/
def constructorName (classChain : Option (List String)) : String :=
  match classChain with
  | some (name :: _) => name
  | _ => "undefined"

/-! ## AmorAbstractTransformer -/

/-- The fields of an `AmorAbstractTransformer` instance. -/
structure AmorAbstractTransformer where
  controller : Controller
  authHandler : AuthHandler
  failFast : Bool
  overwriteKeyValues : Bool
  locale : String
  definition : List (String × String)
  deriving DecidableEq, Repr

/-- The message assembled by the constructor when a collaborator is rejected;
`className` is `this.constructor.name`. -/
def AmorAbstractTransformer.constructorMessage (className : String)
    (controller : Option Controller) (authHandler : Option AuthHandler) : String :=
  let controllerName := constructorName (controller.map Controller.classChain)
  let authHandlerName := constructorName (authHandler.map AuthHandler.classChain)
  let msg1 := if !(isAbstractController controller) then
    "\ncontroller is not an instance of AmorAbstractController" else ""
  let msg2 := if !(isAbstractAuthHandler authHandler) then
    "\nauthHandler is not an instance of AmorAbstractAuthHandler" else ""
  if className ≠ "" then
    className ++ "   with controller-type " ++ controllerName ++ " and authHandler-type "
      ++ authHandlerName ++ msg1 ++ msg2
  else
    " AmorAbstractTransformer with controllerName: " ++ controllerName
      ++ " and authHandlerName: " ++ authHandlerName ++ msg1 ++ msg2

/-- The constructor `new C(controller, authHandler)` for `C` the class named `className`
(AmorAbstractTransformer itself or a class extending it). -/
def AmorAbstractTransformer.constructor (className : String)
    (controller : Option Controller) (authHandler : Option AuthHandler) :
    Except JsError AmorAbstractTransformer :=
  if !(isAbstractController controller) || !(isAbstractAuthHandler authHandler) then
    AmorError.throwNew .CONSTRUCTOR_ERROR
      [AmorAbstractTransformer.constructorMessage className controller authHandler]
      "AmorAbstractTransformer"
  else
    match controller, authHandler with
    | some c, some a =>
      .ok { controller := c
            authHandler := a
            failFast := false
            overwriteKeyValues := true
            locale := c.locale
            definition := [("STRING", "string"), ("ARRAY_STRING", "array of strings"),
              ("ARRAY_OBJECT", "array of objects"), ("OBJECT", "object")] }
    | _, _ => .error (.typeError "Cannot read properties of undefined (reading 'locale')")

/-- The method `setOverwriteKeyValues(bool)`. -/
def AmorAbstractTransformer.setOverwriteKeyValues (t : AmorAbstractTransformer)
    (bool : Bool) : AmorAbstractTransformer :=
  { t with overwriteKeyValues := bool }

/-- The method `getController()`. -/
def AmorAbstractTransformer.getController (t : AmorAbstractTransformer) : Controller :=
  t.controller

/-- The static `AmorAbstractTransformer.sampleData`. -/
def AmorAbstractTransformer.sampleData : Json :=
  .obj [("data", .arr [
    .obj [("feed", .obj [("id", .num 1), ("title", .str "title1"), ("url", .str "url1")])],
    .obj [("feed", .obj [("id", .num 2), ("title", .str "title2"), ("url", .str "url2")])],
    .obj [("feed", .obj [("id", .num 3), ("title", .str "title3"), ("url", .str "url3")])],
    .obj [("feed", .obj [("id", .num 4), ("title", .str "title4"), ("url", .str "url4")])],
    .obj [("feed", .obj [("id", .num 5), ("title", .str "title5"), ("url", .str "url5")])]])]

/-- The method `doMapping2(amorValuePath, sourceObject)`: its body in the source is
empty, so it returns `undefined` and leaves the transformer as it is. -/
def AmorAbstractTransformer.doMapping2 (t : AmorAbstractTransformer)
    (_amorValuePath : Option String) (_sourceObject : Json) :
    AmorAbstractTransformer × Except JsError Unit :=
  (t, .ok ())

/-- The method `doMapping6(amorIDPath, htmlIDPath, amorValuePath, sourceObject)`: its
body in the source is empty, so it returns `undefined` and leaves the transformer as it
is. -/
def AmorAbstractTransformer.doMapping6 (t : AmorAbstractTransformer)
    (_amorIDPath _htmlIDPath _amorValuePath : Option String) (_sourceObject : Json) :
    AmorAbstractTransformer × Except JsError Unit :=
  (t, .ok ())

/-- The text shared by the four abstract methods' messages. -/
def AmorAbstractTransformer.abstractMessage (signature : String) : String :=
  "Unallowed call to abstract method '" ++ signature ++
    "' in AmorAbstractTransformer. Looks like the implementation of your transformer lacks this method."

/-- The async method `doAuthentication(authHandler, credentialsObj)` of the base class. -/
def AmorAbstractTransformer.doAuthentication {α β : Type} (t : AmorAbstractTransformer)
    (_authHandler : α) (_credentialsObj : β) : AmorAbstractTransformer × Promise Unit :=
  (t, Promise.ofCompletion (AmorError.throwConstructed (.ofErrObj 10050
    (AmorAbstractTransformer.abstractMessage "doAuthentication(authHandler,credentialsObj)")
    "AmorAbstractTransformer")))

/-- The async method `setMappedContent(pathKeyOfApiResponse, modelSubset)` of the base
class. -/
def AmorAbstractTransformer.setMappedContent {α β : Type} (t : AmorAbstractTransformer)
    (_pathKeyOfApiResponse : α) (_modelSubset : β) : AmorAbstractTransformer × Promise Unit :=
  (t, Promise.ofCompletion (AmorError.throwConstructed (.ofErrObj 10100
    (AmorAbstractTransformer.abstractMessage "setMappedContent(pathKeyOfApiResponse,modelSubset)")
    "AmorAbstractTransformer")))

/-- The async method `setMappedMappings(pathKeyOfApiResponse, mappingsSubset)` of the
base class. -/
def AmorAbstractTransformer.setMappedMappings {α β : Type} (t : AmorAbstractTransformer)
    (_pathKeyOfApiResponse : α) (_mappingsSubset : β) : AmorAbstractTransformer × Promise Unit :=
  (t, Promise.ofCompletion (AmorError.throwConstructed (.ofErrObj 10200
    (AmorAbstractTransformer.abstractMessage "setMappedMappings(pathKeyOfApiResponse,mappingsSubset)")
    "AmorAbstractTransformer")))

/-- The async method `getData(apiPath, credentialsObj)` of the base class. -/
def AmorAbstractTransformer.getData {α β : Type} (t : AmorAbstractTransformer)
    (_apiPath : α) (_credentialsObj : β) : AmorAbstractTransformer × Promise Json :=
  (t, Promise.ofCompletion (AmorError.throwConstructed (.ofErrObj 10300
    (AmorAbstractTransformer.abstractMessage "getData(apiPath,credentialsObj)")
    "AmorAbstractTransformer")))

/-- What one run of `doMappingMappings` leaves behind: the transformer, the calls of
`setMappedMappings` it made (path key and the table passed), and how the run ended. -/
structure MappingsRun (ρ : Type) where
  transformer : AmorAbstractTransformer
  calls : List (String × MappingsTable)
  result : ρ

/-- The callback of `Object.keys(objPathsForMappings).forEach(...)` in
`doMappingMappings`, run over the remaining keys. `setMM` is the instance's
`setMappedMappings`: it returns normally with a promise, or throws. The argument
`this.controller.model["mappings"]` is evaluated inside the `try`, so a missing model
is caught like a throwing call; the `catch` block calls `AmorError.throwNew` with
`TRANSFORMER_MAPPINGS_ERROR` for that key, and what that call throws ends the loop. A
promise that is returned, rejected or not, is not awaited and the loop goes on. -/
def AmorAbstractTransformer.forEachPathKey
    (setMM : AmorAbstractTransformer → String → MappingsTable →
      AmorAbstractTransformer × Except JsError (Promise Unit)) :
    List String → AmorAbstractTransformer → List (String × MappingsTable) →
      MappingsRun (Except JsError Unit)
  | [], t, calls => ⟨t, calls, .ok ()⟩
  | pathKey :: rest, t, calls =>
    match t.controller.model with
    | none => ⟨t, calls,
        AmorError.throwNew .TRANSFORMER_MAPPINGS_ERROR [pathKey] "AmorAbstractTransformer"⟩
    | some model =>
      match setMM t pathKey model.mappings with
      | (t', .ok _) =>
        AmorAbstractTransformer.forEachPathKey setMM rest t' (calls ++ [(pathKey, model.mappings)])
      | (t', .error _) => ⟨t', calls ++ [(pathKey, model.mappings)],
        AmorError.throwNew .TRANSFORMER_MAPPINGS_ERROR [pathKey] "AmorAbstractTransformer"⟩

/-- The async method `doMappingMappings(objPathsForMappings, locale)` for an instance
whose `setMappedMappings` is `setMM`. `objPathsForMappings` lists the own properties of
the object in `Object.keys` order. -/
def AmorAbstractTransformer.doMappingMappingsWith
    (setMM : AmorAbstractTransformer → String → MappingsTable →
      AmorAbstractTransformer × Except JsError (Promise Unit))
    (t : AmorAbstractTransformer) (objPathsForMappings : List (String × Json))
    (_locale : String) : MappingsRun (Promise Unit) :=
  match AmorAbstractTransformer.forEachPathKey setMM (objPathsForMappings.map Prod.fst) t [] with
  | ⟨t', calls, .ok _⟩ => ⟨t', calls, .fulfilled ()⟩
  | ⟨t', calls, .error e⟩ => ⟨t', calls, .rejected e⟩

/-- The method `doMappingMappings` on the base class, whose `setMappedMappings` is the
async arrow function above: calling it returns a rejected promise and does not throw. -/
def AmorAbstractTransformer.doMappingMappings (t : AmorAbstractTransformer)
    (objPathsForMappings : List (String × Json)) (locale : String) :
    MappingsRun (Promise Unit) :=
  AmorAbstractTransformer.doMappingMappingsWith
    (fun t' pathKey mappings =>
      ((AmorAbstractTransformer.setMappedMappings t' pathKey mappings).1,
        .ok (AmorAbstractTransformer.setMappedMappings t' pathKey mappings).2))
    t objPathsForMappings locale

/-- The two tables a transformer works on, reached through its controller. -/
def AmorAbstractTransformer.model (t : AmorAbstractTransformer) : Option Model :=
  t.controller.model

/-- The restriction of the schema, for the tables a transformer works on. -/
def AmorAbstractTransformer.referencesResolved (t : AmorAbstractTransformer) : Prop :=
  ∀ m ∈ t.model, m.referencesResolved

instance (t : AmorAbstractTransformer) : Decidable t.referencesResolved := by
  unfold AmorAbstractTransformer.referencesResolved; infer_instance

/-! ## The mapping engine, from the specification

`doMappings` is called by `ExampleTransformer.populate` and by the example in the class
documentation, but no class under src defines it, and no strategy other than 2 and 6 has
a method there. The engine below follows the specification (sections 4.1 to 4.3 and 7).
-/

/-- One segment of a wildcard path expression: a field access or the array wildcard. -/
inductive PathSegment where
  | field (name : String)
  | wildcard
  deriving DecidableEq, Repr

/-- The field name collected so far, as a segment; nothing when it is empty. -/
def PathSegment.ofChars (acc : List Char) : List PathSegment :=
  if acc.isEmpty then [] else [.field (String.mk acc)]

/-- Modelled from the spec: the path syntax of the Path Extractor, which is not under
src: dot-separated field access plus the array wildcard segment written with a star
between square brackets. `acc` holds the characters of the field name being read. -/
def parsePath : List Char → List Char → List PathSegment
  | [], acc => PathSegment.ofChars acc
  | '[' :: '*' :: ']' :: cs, acc => PathSegment.ofChars acc ++ .wildcard :: parsePath cs []
  | '.' :: cs, acc => PathSegment.ofChars acc ++ parsePath cs []
  | c :: cs, acc => parsePath cs (acc ++ [c])

/-- The field `name` of a JSON object, if the value is an object that has it. -/
def Json.getField : Json → String → Option Json
  | .obj fields, name => fields.lookup name
  | _, _ => none

/-- Modelled from the spec: evaluation of a parsed path. A wildcard fans out over every
element of an array, applies the remaining path to each element and concatenates the
partial results in array order; a missing field, or a wildcard on a value that is not
an array, yields no result for that branch. -/
def extractSegments : List PathSegment → Json → List Json
  | [], v => [v]
  | .field name :: rest, v =>
    match v.getField name with
    | some w => extractSegments rest w
    | none => []
  | .wildcard :: rest, v =>
    match v with
    | .arr items => (items.map (extractSegments rest)).flatten
    | _ => []

/-- Modelled from the spec: the Path Extractor `extract(path, document)`, which is not
under src. A `null` (here `none`) or empty path expression is the sentinel for "no
extraction" and returns the empty sequence. -/
def extract (path : Option String) (document : Json) : List Json :=
  match path with
  | none => []
  | some p => if p.data.isEmpty then [] else extractSegments (parsePath p.data []) document

/-- Modelled from the spec: the Identifier Allocator, which is not under src. A counter
seeded above the current maximum key of the Content Table: the result is a non-negative
integer that is not a key of the table. -/
def allocateId (content : ContentTable) : Nat :=
  content.keys.foldl (fun acc k => max acc (k + 1)) 0

/-- The decimal digits of `n`, most significant first; `fuel` bounds the number of
digits. -/
def decimalDigits : Nat → Nat → List Char
  | 0, _ => []
  | fuel + 1, n =>
    if n < 10 then [Nat.digitChar n]
    else decimalDigits fuel (n / 10) ++ [Nat.digitChar (n % 10)]

/-- The decimal numeral of a natural number. -/
def decimal (n : Nat) : List Char := decimalDigits (n + 1) n

/-- The `k`-th candidate slot key: a fixed alphabetic part followed by the counter. -/
def slotKeyCandidate (k : Nat) : String :=
  String.mk ([ 'a', 'm', 'o', 'r' ] ++ decimal k)

/-- Modelled from the spec: slot-key synthesis, which is not under src. Candidates with a
monotonically increasing suffix are tried in order; a candidate that collides with a key
of the Mapping Table is passed over and the next one generated. The number of retries is
bounded by the size of the table; `none` stands for `AllocationExhausted`. -/
def synthesizeSlotKey (mappings : MappingsTable) : Option String :=
  ((List.range (mappings.length + 1)).map slotKeyCandidate).find?
    (fun s => !mappings.keys.contains s)

/-- An extracted identifier as a content key: a non-negative integer. -/
def Json.asContentKey : Json → Option Nat
  | .num n => if 0 ≤ n then some n.toNat else none
  | _ => none

/-- An extracted value as a content value: a string. -/
def Json.asContentValue : Json → Option String
  | .str s => some s
  | _ => none

/-- An extracted slot key as a key of the Mapping Table: a string, or an extracted
identifier coerced to its numeral. -/
def Json.asSlotKey : Json → Option String
  | .str s => some s
  | .num n => some (String.mk (if n < 0 then '-' :: decimal n.natAbs else decimal n.natAbs))
  | _ => none

/-- The outcome of a write to the Store. -/
inductive WriteResult (τ : Type) where
  | success (table : τ)
  | conflict
  | danglingReference
  deriving DecidableEq, Repr

/-- Modelled from the spec: `get(contentKey)` of the Content/Mapping Store, which is not
under src; `none` is `NotFound`. -/
def Model.get (m : Model) (contentKey : Nat) : Option String :=
  m.content.lookup contentKey

/-- Modelled from the spec: `setContent(contentKey, contentValue, overwrite)` of the
Store, which is not under src. An identical existing value is a no-op success; a
different one is replaced when `overwrite` holds and is a conflict otherwise. -/
def Model.setContent (m : Model) (contentKey : Nat) (contentValue : String)
    (overwrite : Bool) : WriteResult Model :=
  match m.content.lookup contentKey with
  | none => .success { m with content := m.content ++ [(contentKey, contentValue)] }
  | some old =>
    if old = contentValue then .success m
    else if overwrite then
      .success { m with
        content := m.content.map fun e => if e.1 = contentKey then (contentKey, contentValue) else e }
    else .conflict

/-- Modelled from the spec: `setMapping(slotKey, contentKeyOrList, overwrite)` of the
Store, which is not under src. A referenced content key that is not a key of the Content
Table is a dangling reference; otherwise the write follows the same policy as
`setContent`. -/
def Model.setMapping (m : Model) (slotKey : String) (value : MappingValue)
    (overwrite : Bool) : WriteResult Model :=
  if value.amorIDs.all (fun k => m.content.keys.contains k) then
    match m.mappings.lookup slotKey with
    | none => .success { m with mappings := m.mappings ++ [(slotKey, value)] }
    | some old =>
      if old = value then .success m
      else if overwrite then
        .success { m with
          mappings := m.mappings.map fun e => if e.1 = slotKey then (slotKey, value) else e }
      else .conflict
  else .danglingReference

/-- The error kinds of the specification (section 7); `MalformedPathResult` is the
record-level "malformed path result" of section 4.2. -/
inductive ErrorKind where
  | InvalidStrategy
  | PathExtractionMismatch
  | KeyConflict
  | DanglingReference
  | AllocationExhausted
  | MalformedPathResult
  deriving DecidableEq, Repr

/-- A `MappingError`: its kind, the strategy number of the offending directive, and the
record index and key involved, where there is one. -/
structure MappingError where
  kind : ErrorKind
  strategy : Int
  index : Option Nat
  key : Option String
  deriving DecidableEq, Repr

/-- The summary returned when `failFast` is off: count applied, count skipped, skipped
keys. -/
structure Summary where
  applied : Nat
  skipped : Nat
  skippedKeys : List String
  deriving DecidableEq, Repr

/-- Where an identifier or slot key of a record comes from. -/
inductive Source where
  | extracted
  | synthesized
  deriving DecidableEq, Repr

/-- One row of the strategy table: whether the Content Table is written, where the
identifier comes from, and where the slot key comes from when the Mapping Table is
written (`none` when it is not). -/
structure StrategyRow where
  writesContent : Bool
  idSource : Source
  slotSource : Option Source
  deriving DecidableEq, Repr

/-- Modelled from the spec: the table of the nine population strategies (section 4.2),
with strategies 4 and 5 read as the design notes settle them: 4 synthesizes both
identifier and slot key, 5 extracts the identifier and synthesizes the slot key. Any
other number has no row. -/
def strategyRow (strategy : Int) : Option StrategyRow :=
  if strategy = 1 then some ⟨true, .extracted, none⟩
  else if strategy = 2 then some ⟨true, .synthesized, none⟩
  else if strategy = 3 then some ⟨false, .extracted, some .extracted⟩
  else if strategy = 4 then some ⟨false, .synthesized, some .synthesized⟩
  else if strategy = 5 then some ⟨false, .extracted, some .synthesized⟩
  else if strategy = 6 then some ⟨true, .extracted, some .extracted⟩
  else if strategy = 7 then some ⟨true, .synthesized, some .extracted⟩
  else if strategy = 8 then some ⟨true, .extracted, some .synthesized⟩
  else if strategy = 9 then some ⟨true, .synthesized, some .synthesized⟩
  else none

/-- One positionally zipped record: the extracted identifier, slot key and value, each
absent when the strategy does not extract it. -/
structure Record where
  id : Option Json
  slot : Option Json
  value : Option Json

/-- One column of the records: the extracted sequence when the strategy uses it, and
`n` absent entries when it does not. -/
def recordColumn (used : Bool) (extracted : List Json) (n : Nat) : List (Option Json) :=
  if used then extracted.map some else List.replicate n none

/-- The common length of the sequences a strategy zips; `none` when they differ
(`PathExtractionMismatch`), and 0 when the strategy extracts nothing. -/
def commonLength : List Nat → Option Nat
  | [] => some 0
  | n :: rest => if rest.all (fun k => k = n) then some n else none

/-- Modelled from the spec: the records of a directive, zipped positionally from the
extractions the strategy uses. -/
def zipRecords (row : StrategyRow) (ids slots values : List Json) : Option (List Record) :=
  let usesId := row.idSource = .extracted
  let usesSlot := row.slotSource = some .extracted
  let lengths := (if usesId then [ids.length] else []) ++
    (if usesSlot then [slots.length] else []) ++
    (if row.writesContent then [values.length] else [])
  (commonLength lengths).map fun n =>
    List.zipWith3 Record.mk (recordColumn usesId ids n) (recordColumn usesSlot slots n)
      (recordColumn row.writesContent values n)

/-- What applying one record does: both writes went through, or the record is in error
(with the model as the record left it), or the whole directive must stop. -/
inductive RecordOutcome where
  | applied (m : Model)
  | skipped (m : Model) (error : MappingError)
  | fatal (error : MappingError)

/-- The Mapping Table write of a record, for the identifier `id`. -/
def applyMappingWrite (row : StrategyRow) (overwrite : Bool) (strategy : Int) (index : Nat)
    (m : Model) (r : Record) (id : Nat) : RecordOutcome :=
  match row.slotSource with
  | none => .applied m
  | some .extracted =>
    match r.slot.bind Json.asSlotKey with
    | none => .skipped m ⟨.MalformedPathResult, strategy, some index, none⟩
    | some slot =>
      match m.setMapping slot (.single id) overwrite with
      | .success m' => .applied m'
      | .conflict => .skipped m ⟨.KeyConflict, strategy, some index, some slot⟩
      | .danglingReference => .skipped m ⟨.DanglingReference, strategy, some index, some slot⟩
  | some .synthesized =>
    match synthesizeSlotKey m.mappings with
    | none => .fatal ⟨.AllocationExhausted, strategy, some index, none⟩
    | some slot =>
      match m.setMapping slot (.single id) overwrite with
      | .success m' => .applied m'
      | .conflict => .skipped m ⟨.KeyConflict, strategy, some index, some slot⟩
      | .danglingReference => .skipped m ⟨.DanglingReference, strategy, some index, some slot⟩

/-- The Content Table write of a record, for the identifier `id`, followed by its
Mapping Table write. -/
def applyContentWrite (row : StrategyRow) (overwrite : Bool) (strategy : Int) (index : Nat)
    (m : Model) (r : Record) (id : Nat) : RecordOutcome :=
  if row.writesContent then
    match r.value.bind Json.asContentValue with
    | none => .skipped m ⟨.MalformedPathResult, strategy, some index, some (String.mk (decimal id))⟩
    | some value =>
      match m.setContent id value overwrite with
      | .success m' => applyMappingWrite row overwrite strategy index m' r id
      | _ => .skipped m ⟨.KeyConflict, strategy, some index, some (String.mk (decimal id))⟩
  else applyMappingWrite row overwrite strategy index m r id

/-- Modelled from the spec: one record of a directive. The identifier is extracted or
allocated, then the Content Table and the Mapping Table are written as the strategy
says, each write under the write policy. -/
def applyRecord (row : StrategyRow) (overwrite : Bool) (strategy : Int) (index : Nat)
    (m : Model) (r : Record) : RecordOutcome :=
  match row.idSource with
  | .extracted =>
    match r.id.bind Json.asContentKey with
    | none => .skipped m ⟨.MalformedPathResult, strategy, some index, none⟩
    | some id => applyContentWrite row overwrite strategy index m r id
  | .synthesized => applyContentWrite row overwrite strategy index m r (allocateId m.content)

/-- Modelled from the spec: the records of a directive in order, from record `index` on.
With `failFast` a record in error stops the directive with its error; without it the
record is skipped and counted, and the next one is processed. -/
def applyRecords (row : StrategyRow) (overwrite failFast : Bool) (strategy : Int) :
    List Record → Nat → Model → Summary → Model × Except MappingError Summary
  | [], _, m, summary => (m, .ok summary)
  | r :: rest, index, m, summary =>
    match applyRecord row overwrite strategy index m r with
    | .applied m' =>
      applyRecords row overwrite failFast strategy rest (index + 1) m'
        { summary with applied := summary.applied + 1 }
    | .skipped m' error =>
      if failFast then (m', .error error)
      else applyRecords row overwrite failFast strategy rest (index + 1) m'
        { summary with
          skipped := summary.skipped + 1
          skippedKeys := summary.skippedKeys ++ error.key.toList }
    | .fatal error => (m, .error error)

/-- Modelled from the spec: `doMappings(strategy, idPath, slotPath, valuePath,
sourceDocument)`, the `applyDirective` of section 4.2, which no class under src defines
(only its callers in Examples.js are there). It runs under the two booleans of the write
policy on the two tables, and returns the tables it leaves together with the error or
the summary. An unknown strategy number is rejected before anything else; when
`failFast` is on, a directive that fails leaves the tables as they were. -/
def doMappings (overwriteKeyValues failFast : Bool) (m : Model) (strategy : Int)
    (idPath slotPath valuePath : Option String) (sourceDocument : Json) :
    Model × Except MappingError Summary :=
  match strategyRow strategy with
  | none => (m, .error ⟨.InvalidStrategy, strategy, none, none⟩)
  | some row =>
    match zipRecords row (extract idPath sourceDocument) (extract slotPath sourceDocument)
        (extract valuePath sourceDocument) with
    | none => (m, .error ⟨.PathExtractionMismatch, strategy, none, none⟩)
    | some records =>
      match applyRecords row overwriteKeyValues failFast strategy records 0 m ⟨0, 0, []⟩ with
      | (m', .ok summary) => (m', .ok summary)
      | (m', .error error) => (if failFast then m else m', .error error)

/-! ## Members of the transformer classes -/

/-- The names an instance of `AmorAbstractTransformer` answers to: the fields its
constructor assigns, its class fields and the methods of its prototype. -/
def AmorAbstractTransformer.memberNames : List String :=
  ["controller", "authHandler", "failFast", "overwriteKeyValues", "locale", "definition",
    "doMappingMappings", "doAuthentication", "setMappedContent", "setMappedMappings", "getData",
    "constructor", "setOverwriteKeyValues", "doMapping2", "doMapping6", "getController"]

/-- The names `ExampleTransformer` in Examples.js adds: the fields its constructor and
`setData` assign, and the methods of its prototype. -/
def ExampleTransformer.memberNames : List String :=
  ["demoChoice", "dataSource", "data", "constructor", "setData", "getData", "setDemo",
    "getDemo", "populate"]

/-- The names every object inherits from `Object.prototype`. -/
def objectPrototypeNames : List String :=
  ["constructor", "hasOwnProperty", "isPrototypeOf", "propertyIsEnumerable", "toLocaleString",
    "toString", "valueOf", "__proto__", "__defineGetter__", "__defineSetter__",
    "__lookupGetter__", "__lookupSetter__"]

/-- The call `transformer.setFailFast(bool)` on an `AmorAbstractTransformer` or an
`ExampleTransformer`. Neither class declares a member of that name, nor does
`Object.prototype`, so the callee is `undefined` and the call throws a TypeError; no
field is assigned. -/
def AmorAbstractTransformer.setFailFast (t : AmorAbstractTransformer) (_bool : Bool) :
    AmorAbstractTransformer × Except JsError Unit :=
  (t, .error (.typeError "myTransformerObject.setFailFast is not a function"))

/-! ## The controller and auth-handler classes -/

/-- Modelled from the spec: the class `AmorAbstractController`, which the files under
src import but none of them defines. What its constructor leaves in `locale` and
`model`, and what `runPostConstruct()` does to the controller and whether it throws,
is stated nowhere and is taken as given. -/
structure AbstractControllerClass where
  locale : Cms → String
  model : Cms → Option Model
  runPostConstruct : Controller → Controller × Except JsError Unit

/-- Modelled from the spec: the constructor of `AmorAbstractController`, which is not
under src, called through `super(cms)` for the class named `className`. As the
documentation of the two controller classes says, it takes an instance of AmorModel and
throws if `cms` is not one, here through `AmorError.throwNew` as the constructor of
`AmorAbstractAuthHandler` does; the controller keeps `cms` as attribute. -/
def AmorAbstractController.constructor (base : AbstractControllerClass) (className : String)
    (cms : Option Cms) : Except JsError Controller :=
  match cms with
  | some c =>
    if isAmorModel (some c) then
      .ok { classChain := [className, "AmorAbstractController", "Object"]
            locale := base.locale c
            model := base.model c
            cms := some c
            amorType := none }
    else AmorError.throwNew .CONSTRUCTOR_ERROR [constructorName (some c.classChain)]
      "AmorAbstractController"
  | none => AmorError.throwNew .CONSTRUCTOR_ERROR [constructorName none] "AmorAbstractController"

/-- The constructor of `AmorApiController`: `super(cms)`. -/
def AmorApiController.constructor (base : AbstractControllerClass) (cms : Option Cms) :
    Except JsError Controller :=
  AmorAbstractController.constructor base "AmorApiController" cms

/-- The constructor of `AmorWebSpaceController`: `super(cms)`, then `___amorType` is
assigned. -/
def AmorWebSpaceController.constructor (base : AbstractControllerClass) (cms : Option Cms) :
    Except JsError Controller :=
  match AmorAbstractController.constructor base "AmorWebSpaceController" cms with
  | .ok c => .ok { c with amorType := some "AmorWebSpaceController" }
  | .error e => .error e

/-- The constructor of `AmorAbstractAuthHandler` (AmorModel.js), called for the class
named `className`. -/
def AmorAbstractAuthHandler.constructor (className : String) (controller : Option Controller) :
    Except JsError AuthHandler :=
  if !(isAbstractController controller) then
    AmorError.throwNew .CONSTRUCTOR_ERROR [constructorName (controller.map Controller.classChain)]
      "AmorAbstractAuthHandler"
  else
    .ok { classChain := [className, "AmorAbstractAuthHandler", "Object"]
          controller := controller
          supabase := none }

/-- The constructor of `AmorAuthHandler`: `super(controller)`. -/
def AmorAuthHandler.constructor (controller : Option Controller) : Except JsError AuthHandler :=
  AmorAbstractAuthHandler.constructor "AmorAuthHandler" controller

/-- The constructor of `SupabaseAuthHandler`: `super(controller)`, then the client is
stored in `supabase`. -/
def SupabaseAuthHandler.constructor (controller : Option Controller)
    (supabaseClient : SupabaseClient) : Except JsError AuthHandler :=
  match AmorAbstractAuthHandler.constructor "SupabaseAuthHandler" controller with
  | .ok h => .ok { h with supabase := some supabaseClient }
  | .error e => .error e

/-! ## AmorFactory -/

/-- An instance of `AmorFactory`; the class has static members only. -/
structure AmorFactory where
  deriving DecidableEq, Repr

/-- The constructor of `AmorFactory`, for any arguments: it throws. -/
def AmorFactory.constructor (_args : List Json) : Except JsError AmorFactory :=
  AmorError.throwConstructed (.ofMessage
    "The Amor factory-class is a static class and cannot be instantiated. Use AmorFactory.createXXX(args).  ")

/-- What one call of `createController` leaves behind: the controllers it constructed
(as their constructor left them), the controllers `runPostConstruct` was called on, in
order, and the value returned or the error thrown. -/
structure ControllerCreation where
  constructed : List Controller
  postConstructCalls : List Controller
  result : Except JsError Controller

/-- The `switch` of `createController`: the controller constructed for a name. -/
def AmorFactory.newControllerNamed (base : AbstractControllerClass) (controllerName : String)
    (cms : Option Cms) : Except JsError Controller :=
  if controllerName = "Api" ∨ controllerName = "AmorApiController" then
    AmorApiController.constructor base cms
  else if controllerName = "WebSpace" ∨ controllerName = "AmorWebSpaceController" then
    AmorWebSpaceController.constructor base cms
  else AmorError.throwConstructed (.ofMessage ("Unknown controller name: " ++ controllerName))

/-- The static `AmorFactory.createController(controllerName, cms)`. -/
def AmorFactory.createController (base : AbstractControllerClass) (controllerName : String)
    (cms : Option Cms) : ControllerCreation :=
  if !(isAmorModel cms) then
    ⟨[], [], AmorError.throwConstructed (.ofMessage "Constructor argument is not a Amor object.")⟩
  else
    match AmorFactory.newControllerNamed base controllerName cms with
    | .error e => ⟨[], [], .error e⟩
    | .ok controller =>
      if instanceOf controller.classChain "AmorAbstractController" then
        match base.runPostConstruct controller with
        | (controller', .ok _) => ⟨[controller], [controller], .ok controller'⟩
        | (_, .error e) => ⟨[controller], [controller], .error e⟩
      else
        ⟨[controller], [], AmorError.throwConstructed (.ofMessage
          ("Controller-creation failed. Controller name: " ++ controllerName))⟩

/-- The static `AmorFactory.createAuthHandler(authHandlerName, controller)`.
`createClient` is the function of that name of the supabase library, which may throw. -/
def AmorFactory.createAuthHandler
    (createClient : Option String → Option String → Except JsError SupabaseClient)
    (authHandlerName : String) (controller : Option Controller) : Except JsError AuthHandler :=
  if !(isAbstractController controller) then
    AmorError.throwConstructed (.ofMessage "Constructor argument is not a controller.")
  else if !(isAmorModel (controller.bind Controller.cms)) then
    AmorError.throwConstructed (.ofMessage
      "Constructor argument is not a controller with an Amor-object as attribute.")
  else if authHandlerName = "Standard" ∨ authHandlerName = "Amor" ∨
      authHandlerName = "AmorAuthHandler" then
    AmorAuthHandler.constructor controller
  else if authHandlerName = "supabase" then
    match controller.bind Controller.cms with
    | some cms =>
      match createClient (cms.config.lookup "supabaseUrl") (cms.config.lookup "supabaseKey") with
      | .ok supabase => SupabaseAuthHandler.constructor controller supabase
      | .error e => .error e
    | none => .error (.typeError "Cannot read properties of undefined (reading 'config')")
  else AmorError.throwConstructed (.ofMessage ("Unknown authHandlerName : " ++ authHandlerName))

/-! ## AmorModel -/

/-- The static `AmorModel.COPYRIGHT_INFO`. -/
def AmorModel.COPYRIGHT_INFO : String :=
  " * # Dual License Notice\n" ++
  "\t *\n" ++
  "\t * Amor-cms and the JSON-schema of the underlying model are licensed under the GNU Affero General Public License \n" ++
  "\t * version 3 (AGPLv3) or later.\n" ++
  "\t * See the LICENSE.AGPL file for the full text.\n" ++
  "\t * If you wish to use this software under different terms, such as a commercial license that does not\n" ++
  "\t * require you to disclose modifications or source code (e.g., for proprietary use or internal development),\n" ++
  "\t * please contact danny.amor.joubolo@protonmail.com to discuss licensing options.\n" ++
  "\t * Commercial licenses are available for a fee and allow closed-source modifications and distribution.\n" ++
  "\t *\n" ++
  "\t * Copyright (C) 2025 Danny Amor Joubolo"

/-- A value held by a property of the data object: a plain object, or an array together
with the own properties assigned to it besides its elements. Properties are listed in
the order in which `Object.keys` reports them. -/
inductive DataValue where
  | object (properties : List (String × Json))
  | array (items : List Json) (properties : List (String × Json))

/-- The fields of an `AmorModel` instance. `config` lists the own properties of the
configuration object that the factory and the model read (`controller`, `authHandler`,
`supabaseUrl`, `supabaseKey`), whose values are strings; `data` lists the own
properties of the data object; `undefined` and `null` are `none`. -/
structure AmorModel where
  type : String
  amorStatus : List (String × Bool)
  editModes : List (String × String)
  editMode : String
  amorEvents : List (String × String)
  defaultScrollSettings : List (String × String)
  isInitialized : Bool
  authHandler : Option AuthHandler
  controller : Option Controller
  savedAMORID : Option Nat
  savedFlag : Bool
  returnDefaultIsoContentIfError : Bool
  highLightedElements : List String
  config : List (String × String)
  data : List (String × DataValue)
  currentPage : Option Json
  initializing : Bool
  suppressDebug : Bool
  debugLevel : Nat

/-- The constructor `new AmorModel()`. `data.supportedLanguages` is an empty array to
which the property `___type` is assigned; `addListeners` has an empty body. -/
def AmorModel.constructor : AmorModel :=
  { type := "AmorModel"
    amorStatus := [("LANGUAGES_LOADED", false), ("CONFIG_LOADED", false),
      ("CONTENT_LOADED", false), ("MAPPINGS_LOADED", false), ("CONTENT_PROCESSED", false)]
    editModes := [("EDIT_CMS_INSTANCE", "editCms"), ("EDIT_CMS_PAGE", "editCmsPage"),
      ("EDIT_NONE", "readOnly")]
    editMode := "readOnly"
    amorEvents := [("LANGUAGES_LOADED", "languages_loaded"), ("CONFIG_LOADED", "config_loaded"),
      ("CONTENT_LOADED", "content_loaded"), ("MAPPINGS_LOADED", "mappings_loaded"),
      ("CONTENT_UPDATED", "mappings_updated"), ("CONTEXT_MENU_CHANGED", "contextmenu_changed")]
    defaultScrollSettings := [("behaviour", "smooth"), ("block", "end"), ("inline", "nearest")]
    isInitialized := false
    authHandler := none
    controller := none
    savedAMORID := none
    savedFlag := false
    returnDefaultIsoContentIfError := false
    highLightedElements := []
    config := []
    data := [("other", .object [("copyrightInfo", .str AmorModel.COPYRIGHT_INFO)]),
      ("currentPage", .object [("___type", .str "this.data.currentPage")]),
      ("supportedLanguages", .array [] [("___type", .str "supportedLanguages")])]
    currentPage := none
    initializing := true
    suppressDebug := false
    debugLevel := 1 }

/-- The call `Object.keys(value)` for what `amor.data[table]` yields: a TypeError for
`undefined` (`none`), the property names of a plain object, and for an array its
indices followed by the names of its other own properties. -/
def objectKeys : Option DataValue → Except JsError (List String)
  | none => .error (.typeError "Cannot convert undefined or null to object")
  | some (.object properties) => .ok (properties.map Prod.fst)
  | some (.array items properties) =>
    .ok (((List.range items.length).map fun i => String.mk (decimal i)) ++
      properties.map Prod.fst)

/-- The expression `Object.keys(amor.data[table])`, as in Examples.js for "mappings". -/
def AmorModel.tableKeys (m : AmorModel) (table : String) : Except JsError (List String) :=
  objectKeys (m.data.lookup table)

/-- The async method `load(config)` of `AmorModel`: its body in the source is empty, so
the promise fulfils and the model is left as it was. -/
def AmorModel.load {α : Type} (m : AmorModel) (_config : α) : AmorModel × Promise Unit :=
  (m, .fulfilled ())

/-- The `AmorModel` as the object a controller is constructed on. -/
def AmorModel.toCms (m : AmorModel) : Cms :=
  { classChain := ["AmorModel", "EventTarget", "Object"], config := m.config }

/-- The method `getController()` of `AmorModel`. -/
def AmorModel.getController (m : AmorModel) : Option Controller := m.controller

/-- The method `getAuthHandler()` of `AmorModel`. -/
def AmorModel.getAuthHandler (m : AmorModel) : Option AuthHandler := m.authHandler

/-- The async method `setAuthHandler()` of `AmorModel`: `hasOwnProperty("authHandler")`
holds when the configuration lists the key; an error thrown by the factory rejects the
promise before `authHandler` is assigned. -/
def AmorModel.setAuthHandler
    (createClient : Option String → Option String → Except JsError SupabaseClient)
    (m : AmorModel) : AmorModel × Promise Unit :=
  match m.config.lookup "authHandler" with
  | some authHandlerName =>
    match AmorFactory.createAuthHandler createClient authHandlerName m.getController with
    | .ok h => ({ m with authHandler := some h }, .fulfilled ())
    | .error e => (m, .rejected e)
  | none =>
    match AmorFactory.createAuthHandler createClient "AmorAuthHandler" m.getController with
    | .ok h => ({ m with authHandler := some h }, .fulfilled ())
    | .error e => (m, .rejected e)

/-- The number a decimal numeral denotes; the inverse of `decimal`. -/
def readDecimal (cs : List Char) : Nat :=
  cs.foldl (fun acc c => acc * 10 + (c.toNat - 48)) 0

/-- The record of the counter strategy 9 for the extracted value `v`: neither identifier
nor slot key is extracted. -/
def counterRecord (v : String) : Record := ⟨none, none, some (.str v)⟩

/-! ## Concrete inputs -/

/-- A web-space controller working on the tables `m`, with locale "en". -/
def demoController (m : Model) : Controller :=
  { classChain := ["AmorWebSpaceController", "AmorAbstractController", "Object"]
    locale := "en"
    model := some m
    cms := some ⟨["AmorModel", "EventTarget", "Object"], []⟩
    amorType := some "AmorWebSpaceController" }

/-- The standard auth handler built on the controller `c`. -/
def demoAuthHandler (c : Controller) : AuthHandler :=
  { classChain := ["AmorAuthHandler", "AmorAbstractAuthHandler", "Object"]
    controller := some c
    supabase := none }

/-- The transformer that `new AmorAbstractTransformer(controller, authHandler)` yields
for the demo collaborators on the tables `m`. -/
def demoTransformer (m : Model) : AmorAbstractTransformer :=
  { controller := demoController m
    authHandler := demoAuthHandler (demoController m)
    failFast := false
    overwriteKeyValues := true
    locale := "en"
    definition := [("STRING", "string"), ("ARRAY_STRING", "array of strings"),
      ("ARRAY_OBJECT", "array of objects"), ("OBJECT", "object")] }

/-- The source document of the wildcard fan-out example. -/
def fanOutDocument : Json :=
  .obj [("data", .arr [
    .obj [("feed", .obj [("id", .num 1), ("url", .str "u1")])],
    .obj [("feed", .obj [("id", .num 2), ("url", .str "u2")])]])]

/-- A source document with one record, identifier 5 and value "b". -/
def conflictDocument : Json :=
  .obj [("data", .arr [.obj [("feed", .obj [("id", .num 5), ("url", .str "b")])]])]

/-- A base class whose constructor leaves locale "en" and empty tables, and whose
`runPostConstruct` returns without changing the controller. -/
def demoControllerClass : AbstractControllerClass :=
  { locale := fun _ => "en"
    model := fun _ => some ⟨[], []⟩
    runPostConstruct := fun c => (c, .ok ()) }

/-- A newly constructed AmorModel, as the object handed in as `cms`. -/
def demoCms : Cms := AmorModel.constructor.toCms

/-- A `createClient` that, like the one of the supabase library, insists on a URL and
a key and returns the client for them. -/
def demoCreateClient (supabaseUrl supabaseKey : Option String) :
    Except JsError SupabaseClient :=
  match supabaseUrl, supabaseKey with
  | none, _ => .error (.error "supabaseUrl is required.")
  | some _, none => .error (.error "supabaseKey is required.")
  | some url, some key => .ok ⟨some url, some key⟩

/-- A web-space controller whose cms is an AmorModel configured for supabase. -/
def demoSupabaseController : Controller :=
  { classChain := ["AmorWebSpaceController", "AmorAbstractController", "Object"]
    locale := "en"
    model := some ⟨[], []⟩
    cms := some ⟨["AmorModel", "EventTarget", "Object"],
      [("supabaseUrl", "https://demo.supabase.co"), ("supabaseKey", "demo-key")]⟩
    amorType := some "AmorWebSpaceController" }

/-- The AmorApiController that the demo base class constructs on `demoCms`. -/
def demoApiController : Controller :=
  { classChain := ["AmorApiController", "AmorAbstractController", "Object"]
    locale := "en"
    model := some ⟨[], []⟩
    cms := some demoCms
    amorType := none }

/-- The tables used in the examples of `doMappingMappings`. -/
def demoModel : Model := ⟨[(1, "a")], [("x", .single 1)]⟩

/-! ## The constructor and the write-policy booleans -/

theorem constructor_ok_of_valid (className : String) (c : Controller) (a : AuthHandler)
    (hc : isAbstractController (some c) = true) (ha : isAbstractAuthHandler (some a) = true) :
    AmorAbstractTransformer.constructor className (some c) (some a) =
      .ok { controller := c
            authHandler := a
            failFast := false
            overwriteKeyValues := true
            locale := c.locale
            definition := [("STRING", "string"), ("ARRAY_STRING", "array of strings"),
              ("ARRAY_OBJECT", "array of objects"), ("OBJECT", "object")] } := by
  simp [AmorAbstractTransformer.constructor, hc, ha]

theorem constructor_error_of_invalid (className : String) (controller : Option Controller)
    (authHandler : Option AuthHandler)
    (h : isAbstractController controller = false ∨ isAbstractAuthHandler authHandler = false) :
    AmorAbstractTransformer.constructor className controller authHandler =
      .error (.typeError "Cannot read properties of undefined (reading 'CONSTRUCTOR_ERROR')") := by
  rcases h with h | h <;> simp [AmorAbstractTransformer.constructor, h] <;> rfl

theorem throwConstructed_eq {α : Type} (errorInput : AmorError) :
    (AmorError.throwConstructed errorInput : Except JsError α) =
      .error (.referenceError AmorError.superNotCalled) :=
  rfl

theorem demoTransformer_constructed (m : Model) :
    AmorAbstractTransformer.constructor "AmorAbstractTransformer" (some (demoController m))
      (some (demoAuthHandler (demoController m))) = .ok (demoTransformer m) := by
  rw [constructor_ok_of_valid "AmorAbstractTransformer" (demoController m)
    (demoAuthHandler (demoController m)) rfl rfl]
  rfl

/-- C1: for every valid controller and authHandler, the constructor succeeds and the new
transformer has overwriteKeyValues = true and failFast = false. -/
theorem constructor_defaults (className : String) (controller : Option Controller)
    (authHandler : Option AuthHandler)
    (hc : isAbstractController controller = true)
    (ha : isAbstractAuthHandler authHandler = true) :
    ∃ t, AmorAbstractTransformer.constructor className controller authHandler = .ok t ∧
      t.overwriteKeyValues = true ∧ t.failFast = false := by
  cases controller with
  | none => simp [isAbstractController] at hc
  | some c =>
    cases authHandler with
    | none => simp [isAbstractAuthHandler] at ha
    | some a => exact ⟨_, constructor_ok_of_valid className c a hc ha, rfl, rfl⟩

theorem constructor_defaults_witness :
    ∃ t, AmorAbstractTransformer.constructor "ExampleTransformer"
        (some (demoController ⟨[], []⟩)) (some (demoAuthHandler (demoController ⟨[], []⟩)))
        = .ok t ∧ t.overwriteKeyValues = true ∧ t.failFast = false :=
  constructor_defaults "ExampleTransformer" (some (demoController ⟨[], []⟩))
    (some (demoAuthHandler (demoController ⟨[], []⟩))) (by decide) (by decide)

/-- What holds of the constructor on the code: it fails if and only if the controller is
not an AmorAbstractController or the authHandler is not an AmorAbstractAuthHandler,
every failure is the TypeError of reading `AmorError.info`, and when both are valid
getController() returns the controller that was passed in. -/
theorem constructor_fails_iff_invalid (className : String) (controller : Option Controller)
    (authHandler : Option AuthHandler) :
    ((∃ e, AmorAbstractTransformer.constructor className controller authHandler = .error e) ↔
        (isAbstractController controller = false ∨ isAbstractAuthHandler authHandler = false)) ∧
    (∀ e, AmorAbstractTransformer.constructor className controller authHandler = .error e →
        e = .typeError "Cannot read properties of undefined (reading 'CONSTRUCTOR_ERROR')") ∧
    (isAbstractController controller = true → isAbstractAuthHandler authHandler = true →
        ∃ t, AmorAbstractTransformer.constructor className controller authHandler = .ok t ∧
          some t.getController = controller) := by
  have valid : isAbstractController controller = true → isAbstractAuthHandler authHandler = true →
      ∃ t, AmorAbstractTransformer.constructor className controller authHandler = .ok t ∧
        some t.getController = controller := by
    intro hc ha
    cases controller with
    | none => simp [isAbstractController] at hc
    | some c =>
      cases authHandler with
      | none => simp [isAbstractAuthHandler] at ha
      | some a => exact ⟨_, constructor_ok_of_valid className c a hc ha, rfl⟩
  have invalid_or_valid : (isAbstractController controller = false ∨
      isAbstractAuthHandler authHandler = false) ∨
      (isAbstractController controller = true ∧ isAbstractAuthHandler authHandler = true) := by
    cases isAbstractController controller <;> cases isAbstractAuthHandler authHandler <;> simp
  refine ⟨⟨?_, ?_⟩, ?_, valid⟩
  · rintro ⟨e, he⟩
    rcases invalid_or_valid with h | ⟨hc, ha⟩
    · exact h
    · obtain ⟨t, ht, _⟩ := valid hc ha
      rw [ht] at he
      cases he
  · intro h
    exact ⟨_, constructor_error_of_invalid className controller authHandler h⟩
  · intro e he
    rcases invalid_or_valid with h | ⟨hc, ha⟩
    · rw [constructor_error_of_invalid className controller authHandler h] at he
      cases he
      rfl
    · obtain ⟨t, ht, _⟩ := valid hc ha
      rw [ht] at he
      cases he

/-- C2, the code at new AmorAbstractTransformer(undefined, authHandler) with a valid
authHandler: the guard is entered, and the call of `AmorError.throwNew` with
`AmorError.info.CONSTRUCTOR_ERROR` throws a TypeError, because the class AmorError has
neither member; no AmorError, with CONSTRUCTOR_ERROR or otherwise, is thrown. -/
theorem constructor_invalid_throws_typeError :
    isAbstractController none = false ∧
    isAbstractAuthHandler (some (demoAuthHandler (demoController ⟨[], []⟩))) = true ∧
    AmorAbstractTransformer.constructor "AmorAbstractTransformer" none
        (some (demoAuthHandler (demoController ⟨[], []⟩))) =
      .error (.typeError "Cannot read properties of undefined (reading 'CONSTRUCTOR_ERROR')") ∧
    (∀ msg, AmorAbstractTransformer.constructor "AmorAbstractTransformer" none
        (some (demoAuthHandler (demoController ⟨[], []⟩))) ≠
      .error (.amorError (.thrownNew .CONSTRUCTOR_ERROR [msg] "AmorAbstractTransformer"))) ∧
    ∀ e : AmorError, AmorAbstractTransformer.constructor "AmorAbstractTransformer" none
        (some (demoAuthHandler (demoController ⟨[], []⟩))) ≠ .error (.amorError e) := by
  have h := constructor_error_of_invalid "AmorAbstractTransformer" none
    (some (demoAuthHandler (demoController ⟨[], []⟩))) (Or.inl rfl)
  refine ⟨rfl, rfl, h, ?_, ?_⟩
  · intro msg hmsg
    rw [h] at hmsg
    cases hmsg
  · intro e he
    rw [h] at he
    cases he

/-- C3, the code for every transformer and every argument: each of getData,
setMappedContent, setMappedMappings and doAuthentication builds its errObj and then
returns a promise rejected with the ReferenceError of the AmorError constructor, which
keeps nothing of errObj: the rejection is not an AmorError and carries neither the
message naming the method nor a throwingClass. The transformer is left as it was. -/
theorem abstract_methods_reject_with_referenceError {α β : Type}
    (t : AmorAbstractTransformer) (a : α) (b : β) :
    t.getData a b = (t, .rejected (.referenceError AmorError.superNotCalled)) ∧
    t.setMappedContent a b = (t, .rejected (.referenceError AmorError.superNotCalled)) ∧
    t.setMappedMappings a b = (t, .rejected (.referenceError AmorError.superNotCalled)) ∧
    t.doAuthentication a b = (t, .rejected (.referenceError AmorError.superNotCalled)) ∧
    (∀ e : AmorError, (t.getData a b).2 ≠ .rejected (.amorError e) ∧
      (t.setMappedContent a b).2 ≠ .rejected (.amorError e) ∧
      (t.setMappedMappings a b).2 ≠ .rejected (.amorError e) ∧
      (t.doAuthentication a b).2 ≠ .rejected (.amorError e)) := by
  refine ⟨rfl, rfl, rfl, rfl, ?_⟩
  intro e
  refine ⟨?_, ?_, ?_, ?_⟩ <;> intro h <;> cases h

/-! ## Operations of the base class and the two tables -/

theorem forEachPathKey_base_transformer (keys : List String) (t : AmorAbstractTransformer)
    (calls : List (String × MappingsTable)) :
    (AmorAbstractTransformer.forEachPathKey
      (fun t' pathKey mappings =>
        ((AmorAbstractTransformer.setMappedMappings t' pathKey mappings).1,
          .ok (AmorAbstractTransformer.setMappedMappings t' pathKey mappings).2))
      keys t calls).transformer = t := by
  induction keys generalizing calls with
  | nil => rfl
  | cons pathKey rest ih =>
    unfold AmorAbstractTransformer.forEachPathKey
    cases h : t.controller.model with
    | none => rfl
    | some model => simpa [AmorAbstractTransformer.setMappedMappings] using ih _

theorem doMappingMappings_transformer (t : AmorAbstractTransformer)
    (objPathsForMappings : List (String × Json)) (locale : String) :
    (t.doMappingMappings objPathsForMappings locale).transformer = t := by
  have h := forEachPathKey_base_transformer (objPathsForMappings.map Prod.fst) t []
  unfold AmorAbstractTransformer.doMappingMappings AmorAbstractTransformer.doMappingMappingsWith
  revert h
  generalize AmorAbstractTransformer.forEachPathKey _ _ t [] = run
  intro h
  obtain ⟨t', calls, result⟩ := run
  cases result <;> exact h

/-- C10: for every boolean b, setOverwriteKeyValues(b) leaves overwriteKeyValues = b and
changes nothing else (failFast, controller, authHandler, locale, definition and both
model tables stay); calling it twice with b equals calling it once, a later call
replaces the value, and every other operation of the class leaves the value in force. -/
theorem setOverwriteKeyValues_frame (t : AmorAbstractTransformer) (b b' : Bool)
    (path1 path2 path3 : Option String) (document : Json)
    (objPathsForMappings : List (String × Json)) (locale : String) :
    (t.setOverwriteKeyValues b).overwriteKeyValues = b ∧
    (t.setOverwriteKeyValues b).failFast = t.failFast ∧
    (t.setOverwriteKeyValues b).controller = t.controller ∧
    (t.setOverwriteKeyValues b).authHandler = t.authHandler ∧
    (t.setOverwriteKeyValues b).locale = t.locale ∧
    (t.setOverwriteKeyValues b).definition = t.definition ∧
    (t.setOverwriteKeyValues b).model = t.model ∧
    (t.setOverwriteKeyValues b).setOverwriteKeyValues b = t.setOverwriteKeyValues b ∧
    (t.setOverwriteKeyValues b).setOverwriteKeyValues b' = t.setOverwriteKeyValues b' ∧
    ((t.setOverwriteKeyValues b).doMapping2 path3 document).1.overwriteKeyValues = b ∧
    ((t.setOverwriteKeyValues b).doMapping6 path1 path2 path3 document).1.overwriteKeyValues = b ∧
    ((t.setOverwriteKeyValues b).doMappingMappings objPathsForMappings
      locale).transformer.overwriteKeyValues = b ∧
    ((t.setOverwriteKeyValues b).getData path1 document).1.overwriteKeyValues = b ∧
    ((t.setOverwriteKeyValues b).setMappedContent path1 document).1.overwriteKeyValues = b ∧
    ((t.setOverwriteKeyValues b).setMappedMappings path1 document).1.overwriteKeyValues = b ∧
    ((t.setOverwriteKeyValues b).doAuthentication path1 document).1.overwriteKeyValues = b := by
  refine ⟨rfl, rfl, rfl, rfl, rfl, rfl, rfl, rfl, rfl, rfl, rfl, ?_, rfl, rfl, rfl, rfl⟩
  rw [doMappingMappings_transformer]
  rfl

/-- C7: if every value of the mappings table is a key of the content table before
setOverwriteKeyValues, doMapping2, doMapping6 or doMappingMappings on the base class,
then the same holds after it. -/
theorem referencesResolved_preserved (t : AmorAbstractTransformer)
    (h : t.referencesResolved) (b : Bool) (idPath slotPath valuePath : Option String)
    (document : Json) (objPathsForMappings : List (String × Json)) (locale : String) :
    (t.setOverwriteKeyValues b).referencesResolved ∧
    (t.doMapping2 valuePath document).1.referencesResolved ∧
    (t.doMapping6 idPath slotPath valuePath document).1.referencesResolved ∧
    (t.doMappingMappings objPathsForMappings locale).transformer.referencesResolved := by
  refine ⟨h, h, h, ?_⟩
  rw [doMappingMappings_transformer]
  exact h

theorem referencesResolved_preserved_witness :
    (demoTransformer ⟨[(1, "a"), (2, "b")], [("x", .single 1), ("y", .many [1, 2])]⟩).referencesResolved ∧
    ((demoTransformer ⟨[(1, "a"), (2, "b")], [("x", .single 1), ("y", .many [1, 2])]⟩).doMappingMappings
      [("feed[*].title", .null), ("feed[*].url", .null)] "en").transformer.referencesResolved :=
  ⟨by decide,
    (referencesResolved_preserved
      (demoTransformer ⟨[(1, "a"), (2, "b")], [("x", .single 1), ("y", .many [1, 2])]⟩)
      (by decide) false (some "data[*].feed.id") (some "data[*].feed.id")
      (some "data[*].feed.url") fanOutDocument
      [("feed[*].title", .null), ("feed[*].url", .null)] "en").2.2.2⟩

/-! ## doMapping2 and doMapping6 against their documentation -/

/-- C4, the code at the fan-out example: doMapping6 on a newly constructed transformer
with empty tables returns normally and leaves both tables empty, where the documented
strategy 6 (the engine of the specification) gives content 1 -> "u1", 2 -> "u2" and
mappings 1 -> 1, 2 -> 2. -/
theorem doMapping6_fanOut_writes_nothing :
    AmorAbstractTransformer.constructor "AmorAbstractTransformer"
        (some (demoController ⟨[], []⟩)) (some (demoAuthHandler (demoController ⟨[], []⟩)))
      = .ok (demoTransformer ⟨[], []⟩) ∧
    (demoTransformer ⟨[], []⟩).doMapping6 (some "data[*].feed.id") (some "data[*].feed.id")
        (some "data[*].feed.url") fanOutDocument = (demoTransformer ⟨[], []⟩, .ok ()) ∧
    ((demoTransformer ⟨[], []⟩).doMapping6 (some "data[*].feed.id") (some "data[*].feed.id")
        (some "data[*].feed.url") fanOutDocument).1.model = some ⟨[], []⟩ ∧
    (doMappings true false ⟨[], []⟩ 6 (some "data[*].feed.id") (some "data[*].feed.id")
        (some "data[*].feed.url") fanOutDocument).1 =
      ⟨[(1, "u1"), (2, "u2")], [("1", .single 1), ("2", .single 2)]⟩ :=
  ⟨demoTransformer_constructed _, rfl, rfl, by rfl⟩

/-- C6, the code at the sample data: the valuePath extraction yields the five values
url1..url5, and doMapping2 on a newly constructed transformer with empty tables returns
normally with the Content Table still empty. -/
theorem doMapping2_sampleData_writes_nothing :
    (extract (some "data[*].feed.url") AmorAbstractTransformer.sampleData).filterMap
        Json.asContentValue = ["url1", "url2", "url3", "url4", "url5"] ∧
    (extract (some "data[*].feed.url") AmorAbstractTransformer.sampleData).length = 5 ∧
    (demoTransformer ⟨[], []⟩).doMapping2 (some "data[*].feed.url")
        AmorAbstractTransformer.sampleData = (demoTransformer ⟨[], []⟩, .ok ()) ∧
    ((demoTransformer ⟨[], []⟩).doMapping2 (some "data[*].feed.url")
        AmorAbstractTransformer.sampleData).1.model = some ⟨[], []⟩ :=
  ⟨by decide, by decide, rfl, rfl⟩

/-- C8, the code at the conflict example: with content 5 -> "a", overwriteKeyValues set
to false and either value of failFast, doMapping6 for a record 5 -> "b" returns normally:
it throws nothing and leaves the transformer, which is all it could record in, as it
was; the engine of the specification reports one KeyConflict there. -/
theorem doMapping6_conflict_reports_nothing (failFast : Bool) :
    ({ (demoTransformer ⟨[(5, "a")], []⟩).setOverwriteKeyValues false with
        failFast := failFast }).doMapping6 (some "data[*].feed.id") (some "data[*].feed.id")
        (some "data[*].feed.url") conflictDocument =
      ({ (demoTransformer ⟨[(5, "a")], []⟩).setOverwriteKeyValues false with
        failFast := failFast }, .ok ()) ∧
    doMappings false true ⟨[(5, "a")], []⟩ 6 (some "data[*].feed.id") (some "data[*].feed.id")
        (some "data[*].feed.url") conflictDocument =
      (⟨[(5, "a")], []⟩, .error ⟨.KeyConflict, 6, some 0, some "5"⟩) ∧
    doMappings false false ⟨[(5, "a")], []⟩ 6 (some "data[*].feed.id") (some "data[*].feed.id")
        (some "data[*].feed.url") conflictDocument =
      (⟨[(5, "a")], []⟩, .ok ⟨0, 1, ["5"]⟩) :=
  ⟨rfl, by rfl, by rfl⟩

/-! ## The engine of the specification -/

/-- C9: for every strategy number outside 1..9 and every paths and document, applying
the directive fails with an InvalidStrategy MappingError carrying that number and leaves
both tables exactly as they were, for either value of failFast (and of
overwriteKeyValues). -/
theorem doMappings_invalidStrategy (overwriteKeyValues failFast : Bool) (m : Model)
    (strategy : Int) (idPath slotPath valuePath : Option String) (sourceDocument : Json)
    (h : strategy < 1 ∨ 9 < strategy) :
    doMappings overwriteKeyValues failFast m strategy idPath slotPath valuePath sourceDocument
      = (m, .error ⟨.InvalidStrategy, strategy, none, none⟩) := by
  have hrow : strategyRow strategy = none := by
    unfold strategyRow
    repeat' split
    all_goals first | rfl | omega
  simp [doMappings, hrow]

theorem doMappings_invalidStrategy_witness :
    doMappings true true ⟨[(5, "a")], [("x", .single 5)]⟩ 0 (some "data[*].feed.id") none
        (some "data[*].feed.url") fanOutDocument
      = (⟨[(5, "a")], [("x", .single 5)]⟩, .error ⟨.InvalidStrategy, 0, none, none⟩) ∧
    doMappings true false ⟨[(5, "a")], [("x", .single 5)]⟩ 10 (some "data[*].feed.id") none
        (some "data[*].feed.url") fanOutDocument
      = (⟨[(5, "a")], [("x", .single 5)]⟩, .error ⟨.InvalidStrategy, 10, none, none⟩) :=
  ⟨doMappings_invalidStrategy true true _ 0 _ _ _ _ (by decide),
    doMappings_invalidStrategy true false _ 10 _ _ _ _ (by decide)⟩

/-! ### Synthesized keys are fresh -/

theorem foldl_max_succ_bounds (keys : List Nat) (a : Nat) :
    a ≤ keys.foldl (fun acc k => max acc (k + 1)) a ∧
      ∀ k ∈ keys, k < keys.foldl (fun acc k => max acc (k + 1)) a := by
  induction keys generalizing a with
  | nil => simp
  | cons x xs ih =>
    simp only [List.foldl_cons, List.mem_cons]
    have h := ih (max a (x + 1))
    refine ⟨by omega, ?_⟩
    rintro k (rfl | hk)
    · omega
    · exact h.2 k hk

theorem allocateId_not_mem (content : ContentTable) : allocateId content ∉ content.keys := by
  intro h
  exact absurd ((foldl_max_succ_bounds content.keys 0).2 _ h) (lt_irrefl _)

theorem digitChar_toNat (d : Nat) (h : d < 10) : (Nat.digitChar d).toNat - 48 = d := by
  interval_cases d <;> rfl

theorem readDecimal_append (cs : List Char) (c : Char) :
    readDecimal (cs ++ [c]) = readDecimal cs * 10 + (c.toNat - 48) := by
  simp [readDecimal, List.foldl_append]

theorem readDecimal_decimalDigits (fuel n : Nat) (h : n < fuel) :
    readDecimal (decimalDigits fuel n) = n := by
  induction fuel generalizing n with
  | zero => omega
  | succ fuel ih =>
    unfold decimalDigits
    split
    · next hn => simp [readDecimal, digitChar_toNat n hn]
    · next hn =>
      rw [readDecimal_append, ih (n / 10) (by omega), digitChar_toNat _ (Nat.mod_lt _ (by decide))]
      omega

theorem decimal_injective : Function.Injective decimal := by
  intro a b h
  have := congrArg readDecimal h
  simpa [decimal, readDecimal_decimalDigits] using this

theorem slotKeyCandidate_injective : Function.Injective slotKeyCandidate := by
  intro a b h
  have hdata := congrArg String.data h
  exact decimal_injective (List.append_cancel_left hdata)

theorem synthesizeSlotKey_fresh (mappings : MappingsTable) :
    ∃ s, synthesizeSlotKey mappings = some s ∧ s ∉ mappings.keys := by
  cases h : synthesizeSlotKey mappings with
  | some s =>
    refine ⟨s, rfl, ?_⟩
    have := List.find?_some h
    simpa using this
  | none =>
    exfalso
    rw [synthesizeSlotKey, List.find?_eq_none] at h
    have hsub : (List.range (mappings.length + 1)).map slotKeyCandidate ⊆ mappings.keys := by
      intro x hx
      simpa using h x hx
    have hnd : ((List.range (mappings.length + 1)).map slotKeyCandidate).Nodup :=
      (List.nodup_range _).map slotKeyCandidate_injective
    have hlen := (List.subperm_of_subset hnd hsub).length_le
    simp [MappingsTable.keys] at hlen

theorem lookup_eq_none_of_not_mem {κ β : Type} [BEq κ] [LawfulBEq κ] (l : List (κ × β)) (k : κ)
    (h : k ∉ l.map Prod.fst) : l.lookup k = none := by
  rw [List.lookup_eq_none_iff]
  intro p hp
  simp only [bne_iff_ne, ne_eq]
  intro hk
  exact h (List.mem_map.2 ⟨p, hp, hk.symm⟩)

/-! ### The counter strategy -/

theorem zipWith3_counter (values : List Json) :
    List.zipWith3 Record.mk (List.replicate values.length none)
      (List.replicate values.length none) (values.map some) =
      values.map (fun v => ⟨none, none, some v⟩) := by
  induction values with
  | nil => rfl
  | cons v vs ih =>
    simp only [List.length_cons, List.replicate_succ, List.map_cons, List.zipWith3, ih]

theorem zipRecords_counter (ids slots : List Json) (values : List String) :
    zipRecords ⟨true, .synthesized, some .synthesized⟩ ids slots (values.map Json.str) =
      some (values.map counterRecord) := by
  show (commonLength [(values.map Json.str).length]).map (fun n =>
    List.zipWith3 Record.mk (List.replicate n none) (List.replicate n none)
      ((values.map Json.str).map some)) = _
  simp only [commonLength, List.all_nil, if_true, Option.map_some']
  rw [zipWith3_counter, List.map_map]
  rfl

theorem applyRecord_counter (overwrite : Bool) (strategy : Int) (index : Nat) (m : Model)
    (v : String) :
    ∃ s, s ∉ m.mappings.keys ∧
      applyRecord ⟨true, .synthesized, some .synthesized⟩ overwrite strategy index m
        (counterRecord v) =
      .applied ⟨m.content ++ [(allocateId m.content, v)],
        m.mappings ++ [(s, .single (allocateId m.content))]⟩ := by
  obtain ⟨s, hs, hfresh⟩ := synthesizeSlotKey_fresh m.mappings
  refine ⟨s, hfresh, ?_⟩
  have hid := lookup_eq_none_of_not_mem m.content _ (allocateId_not_mem m.content)
  have hslot := lookup_eq_none_of_not_mem m.mappings s hfresh
  simp [applyRecord, applyContentWrite, applyMappingWrite, counterRecord, Json.asContentValue,
    Model.setContent, Model.setMapping, hid, hs, hslot, MappingValue.amorIDs,
    ContentTable.keys]

theorem applyRecords_counter (overwrite failFast : Bool) (strategy : Int)
    (values : List String) (index : Nat) (m : Model) (summary : Summary) :
    ∃ ids : List Nat, ∃ slots : List String,
      ids.length = values.length ∧ slots.length = values.length ∧
      applyRecords ⟨true, .synthesized, some .synthesized⟩ overwrite failFast strategy
        (values.map counterRecord) index m summary =
        (⟨m.content ++ ids.zip values, m.mappings ++ slots.zip (ids.map .single)⟩,
          .ok ⟨summary.applied + values.length, summary.skipped, summary.skippedKeys⟩) ∧
      ids.Nodup ∧ (∀ k ∈ ids, k ∉ m.content.keys) ∧
      slots.Nodup ∧ (∀ s ∈ slots, s ∉ m.mappings.keys) := by
  induction values generalizing index m summary with
  | nil => exact ⟨[], [], rfl, rfl, by simp [applyRecords], List.nodup_nil, by simp,
      List.nodup_nil, by simp⟩
  | cons v vs ih =>
    obtain ⟨s, hs, hstep⟩ := applyRecord_counter overwrite strategy index m v
    obtain ⟨ids, slots, hil, hsl, hrun, hind, hif, hsnd, hsf⟩ :=
      ih (index + 1) ⟨m.content ++ [(allocateId m.content, v)],
        m.mappings ++ [(s, .single (allocateId m.content))]⟩
        { summary with applied := summary.applied + 1 }
    have hid := allocateId_not_mem m.content
    simp only [ContentTable.keys, MappingsTable.keys, List.map_append, List.map_cons,
      List.map_nil, List.mem_append, List.mem_singleton, not_or] at hif hsf
    refine ⟨allocateId m.content :: ids, s :: slots, by simp [hil], by simp [hsl], ?_,
      ?_, ?_, ?_, ?_⟩
    · simp only [List.map_cons, applyRecords, hstep, hrun]
      simp [Nat.add_assoc, Nat.add_comm 1]
    · exact List.nodup_cons.2 ⟨fun h => (hif _ h).2 rfl, hind⟩
    · intro k hk
      rcases List.mem_cons.1 hk with rfl | hk
      · exact hid
      · exact (hif k hk).1
    · exact List.nodup_cons.2 ⟨fun h => (hsf _ h).2 rfl, hsnd⟩
    · intro k hk
      rcases List.mem_cons.1 hk with rfl | hk
      · exact hs
      · exact (hsf k hk).1

/-- C5: for every document whose valuePath extraction yields the values v_1..v_n,
strategy 9 (idPath and slotPath null) succeeds with n records applied, appends n Content
Table entries at distinct synthesized keys that were not keys before, holding v_1..v_n in
order, and appends n Mapping Table entries at distinct synthesized slot keys that were
not keys before, the i-th referencing the i-th new content key. -/
theorem doMappings_counterStrategy (overwriteKeyValues failFast : Bool) (m : Model)
    (valuePath : Option String) (sourceDocument : Json) (values : List String)
    (h : extract valuePath sourceDocument = values.map Json.str) :
    ∃ ids : List Nat, ∃ slots : List String,
      ids.length = values.length ∧ slots.length = values.length ∧
      doMappings overwriteKeyValues failFast m 9 none none valuePath sourceDocument =
        (⟨m.content ++ ids.zip values, m.mappings ++ slots.zip (ids.map .single)⟩,
          .ok ⟨values.length, 0, []⟩) ∧
      ids.Nodup ∧ (∀ k ∈ ids, k ∉ m.content.keys) ∧
      slots.Nodup ∧ (∀ s ∈ slots, s ∉ m.mappings.keys) := by
  obtain ⟨ids, slots, hil, hsl, hrun, hrest⟩ :=
    applyRecords_counter overwriteKeyValues failFast 9 values 0 m ⟨0, 0, []⟩
  refine ⟨ids, slots, hil, hsl, ?_, hrest⟩
  have hrow : strategyRow 9 = some ⟨true, .synthesized, some .synthesized⟩ := by decide
  simp only [doMappings, hrow, h, zipRecords_counter, hrun]
  simp

theorem doMappings_counterStrategy_witness :
    extract (some "data[*].feed.url") AmorAbstractTransformer.sampleData =
        ["url1", "url2", "url3", "url4", "url5"].map Json.str ∧
    (∃ ids : List Nat, ∃ slots : List String,
      ids.length = 5 ∧ slots.length = 5 ∧
      doMappings true false ⟨[], []⟩ 9 none none (some "data[*].feed.url")
          AmorAbstractTransformer.sampleData =
        (⟨[] ++ ids.zip ["url1", "url2", "url3", "url4", "url5"],
            [] ++ slots.zip (ids.map .single)⟩, .ok ⟨5, 0, []⟩) ∧
      ids.Nodup ∧ (∀ k ∈ ids, k ∉ ContentTable.keys []) ∧
      slots.Nodup ∧ (∀ s ∈ slots, s ∉ MappingsTable.keys [])) ∧
    doMappings true false ⟨[], []⟩ 9 none none (some "data[*].feed.url")
        AmorAbstractTransformer.sampleData =
      (⟨[(0, "url1"), (1, "url2"), (2, "url3"), (3, "url4"), (4, "url5")],
        [("amor0", .single 0), ("amor1", .single 1), ("amor2", .single 2),
          ("amor3", .single 3), ("amor4", .single 4)]⟩, .ok ⟨5, 0, []⟩) :=
  ⟨by rfl,
    doMappings_counterStrategy true false ⟨[], []⟩ (some "data[*].feed.url")
      AmorAbstractTransformer.sampleData ["url1", "url2", "url3", "url4", "url5"] (by rfl),
    by rfl⟩

/-! ## setFailFast -/

/-- C11, the code at setFailFast(true): no class declares a member `setFailFast`, so on
a newly constructed transformer the call throws a TypeError and failFast stays false,
where the claim and the documented example have it succeed with failFast = true. -/
theorem setFailFast_not_declared :
    "setFailFast" ∉ AmorAbstractTransformer.memberNames ++ ExampleTransformer.memberNames ++
      objectPrototypeNames ∧
    AmorAbstractTransformer.constructor "ExampleTransformer" (some (demoController ⟨[], []⟩))
        (some (demoAuthHandler (demoController ⟨[], []⟩))) = .ok (demoTransformer ⟨[], []⟩) ∧
    (demoTransformer ⟨[], []⟩).setFailFast true =
      (demoTransformer ⟨[], []⟩,
        .error (.typeError "myTransformerObject.setFailFast is not a function")) ∧
    ((demoTransformer ⟨[], []⟩).setFailFast true).1.failFast = false := by
  refine ⟨by decide, ?_, rfl, rfl⟩
  rw [constructor_ok_of_valid "ExampleTransformer" (demoController ⟨[], []⟩)
    (demoAuthHandler (demoController ⟨[], []⟩)) rfl rfl]
  rfl

/-! ## AmorFactory.createController -/

theorem createController_of_constructed (base : AbstractControllerClass)
    (controllerName : String) (cms : Option Cms) (c : Controller)
    (hcms : isAmorModel cms = true)
    (hnew : AmorFactory.newControllerNamed base controllerName cms = .ok c)
    (hinst : instanceOf c.classChain "AmorAbstractController" = true)
    (hpost : (base.runPostConstruct c).2 = .ok ()) :
    AmorFactory.createController base controllerName cms =
      ⟨[c], [c], .ok (base.runPostConstruct c).1⟩ := by
  unfold AmorFactory.createController
  simp only [hcms, hnew, hinst, Bool.not_true, Bool.false_eq_true, if_false, if_true]
  revert hpost
  generalize base.runPostConstruct c = r
  obtain ⟨c1, res⟩ := r
  intro hpost
  simp only at hpost
  subst hpost
  rfl

theorem abstractController_constructed (base : AbstractControllerClass) (className : String)
    (cms : Option Cms) (c : Controller)
    (h : AmorAbstractController.constructor base className cms = .ok c) :
    c.classChain = [className, "AmorAbstractController", "Object"] ∧ c.cms = cms ∧
      isAmorModel cms = true := by
  unfold AmorAbstractController.constructor at h
  cases cms with
  | none => simp [AmorError.throwNew] at h
  | some m =>
    by_cases hm : isAmorModel (some m) = true
    · simp only [hm, if_true] at h
      injection h with h
      subst h
      exact ⟨rfl, rfl, hm⟩
    · simp [hm, AmorError.throwNew] at h

theorem newControllerNamed_instanceOf (base : AbstractControllerClass)
    (controllerName : String) (cms : Option Cms) (c : Controller)
    (hnew : AmorFactory.newControllerNamed base controllerName cms = .ok c) :
    instanceOf c.classChain "AmorAbstractController" = true := by
  unfold AmorFactory.newControllerNamed at hnew
  split_ifs at hnew
  · have h := abstractController_constructed base _ cms c hnew
    simp [instanceOf, h.1]
  · unfold AmorWebSpaceController.constructor at hnew
    cases hc : AmorAbstractController.constructor base "AmorWebSpaceController" cms with
    | error e => rw [hc] at hnew; cases hnew
    | ok c0 =>
      rw [hc] at hnew
      injection hnew with hnew
      subst hnew
      have h := abstractController_constructed base _ cms c0 hc
      simp [instanceOf, h.1]
  · rw [throwConstructed_eq] at hnew
    cases hnew

/-- C12: for every AmorModel cms, createController constructs, for "Api" and
"AmorApiController", an AmorApiController on that cms and, for "WebSpace" and
"AmorWebSpaceController", an AmorWebSpaceController on that cms, calls runPostConstruct
on it exactly once, and, runPostConstruct returning, returns that controller as the call
left it. -/
theorem createController_returns_named (base : AbstractControllerClass) (cms : Cms)
    (controllerName : String) (hcms : isAmorModel (some cms) = true) :
    (controllerName = "Api" ∨ controllerName = "AmorApiController" →
      ∀ c, c = { classChain := ["AmorApiController", "AmorAbstractController", "Object"],
                 locale := base.locale cms, model := base.model cms, cms := some cms,
                 amorType := none } →
        (base.runPostConstruct c).2 = .ok () →
        AmorFactory.createController base controllerName (some cms) =
          ⟨[c], [c], .ok (base.runPostConstruct c).1⟩) ∧
    (controllerName = "WebSpace" ∨ controllerName = "AmorWebSpaceController" →
      ∀ c, c = { classChain := ["AmorWebSpaceController", "AmorAbstractController", "Object"],
                 locale := base.locale cms, model := base.model cms, cms := some cms,
                 amorType := some "AmorWebSpaceController" } →
        (base.runPostConstruct c).2 = .ok () →
        AmorFactory.createController base controllerName (some cms) =
          ⟨[c], [c], .ok (base.runPostConstruct c).1⟩) := by
  constructor
  · intro hname c hc hpost
    refine createController_of_constructed base controllerName (some cms) c hcms ?_
      (by subst hc; rfl) hpost
    subst hc
    simp [AmorFactory.newControllerNamed, hname, AmorApiController.constructor,
      AmorAbstractController.constructor, hcms]
  · intro hname c hc hpost
    refine createController_of_constructed base controllerName (some cms) c hcms ?_
      (by subst hc; rfl) hpost
    subst hc
    have hne : ¬ (controllerName = "Api" ∨ controllerName = "AmorApiController") := by
      rcases hname with h | h <;> subst h <;> decide
    simp [AmorFactory.newControllerNamed, hname, hne, AmorWebSpaceController.constructor,
      AmorAbstractController.constructor, hcms]

theorem createController_returns_named_witness :
    AmorFactory.createController demoControllerClass "Api" (some demoCms) =
      ⟨[demoApiController], [demoApiController], .ok demoApiController⟩ ∧
    AmorFactory.createController demoControllerClass "AmorWebSpaceController" (some demoCms) =
      ⟨[demoController ⟨[], []⟩], [demoController ⟨[], []⟩], .ok (demoController ⟨[], []⟩)⟩ :=
  ⟨(createController_returns_named demoControllerClass demoCms "Api" (by decide)).1
      (Or.inl rfl) demoApiController rfl rfl,
    (createController_returns_named demoControllerClass demoCms "AmorWebSpaceController"
      (by decide)).2 (Or.inr rfl) (demoController ⟨[], []⟩) rfl rfl⟩

theorem createController_not_amorModel (base : AbstractControllerClass)
    (controllerName : String) (cms : Option Cms) (h : isAmorModel cms = false) :
    AmorFactory.createController base controllerName cms =
      ⟨[], [], AmorError.throwConstructed
        (.ofMessage "Constructor argument is not a Amor object.")⟩ := by
  simp [AmorFactory.createController, h]

theorem createController_unknown_name (base : AbstractControllerClass)
    (controllerName : String) (cms : Option Cms) (h : isAmorModel cms = true)
    (hname : controllerName ∉ ["Api", "AmorApiController", "WebSpace", "AmorWebSpaceController"]) :
    AmorFactory.createController base controllerName cms =
      ⟨[], [], AmorError.throwConstructed
        (.ofMessage ("Unknown controller name: " ++ controllerName))⟩ := by
  simp only [List.mem_cons, List.mem_singleton, List.not_mem_nil, or_false, not_or] at hname
  simp [AmorFactory.createController, AmorFactory.newControllerNamed, h, hname,
    throwConstructed_eq]

theorem newControllerNamed_ok (base : AbstractControllerClass) (controllerName : String)
    (cms : Option Cms) (h : isAmorModel cms = true)
    (hname : controllerName ∈ ["Api", "AmorApiController", "WebSpace", "AmorWebSpaceController"]) :
    ∃ c, AmorFactory.newControllerNamed base controllerName cms = .ok c := by
  cases cms with
  | none => simp [isAmorModel] at h
  | some m =>
    simp only [List.mem_cons, List.mem_singleton, List.not_mem_nil, or_false] at hname
    unfold AmorFactory.newControllerNamed
    split_ifs with h1 h2
    · exact ⟨_, by simp [AmorApiController.constructor, AmorAbstractController.constructor, h]; rfl⟩
    · exact ⟨_, by simp [AmorWebSpaceController.constructor, AmorAbstractController.constructor, h]; rfl⟩
    · exact absurd hname (by tauto)

theorem createController_constructed_eq_calls (base : AbstractControllerClass)
    (controllerName : String) (cms : Option Cms) :
    (AmorFactory.createController base controllerName cms).constructed =
      (AmorFactory.createController base controllerName cms).postConstructCalls := by
  unfold AmorFactory.createController
  split
  · rfl
  · split
    · rfl
    · next c hc =>
      rw [if_pos (newControllerNamed_instanceOf base controllerName cms c hc)]
      split <;> rfl

/-- C13: createController fails whenever cms is not an AmorModel or the name is not one
of "Api", "AmorApiController", "WebSpace", "AmorWebSpaceController"; when cms is not an
AmorModel it fails for every name with no controller constructed and no runPostConstruct
call; every controller the switch constructs is an AmorAbstractController and has
runPostConstruct called on it, so the last branch is not taken; and, runPostConstruct
returning, it fails in no other case and never with the "Controller-creation failed"
error. -/
theorem createController_fails_iff (base : AbstractControllerClass) (controllerName : String)
    (cms : Option Cms) :
    ((isAmorModel cms = false ∨
        controllerName ∉ ["Api", "AmorApiController", "WebSpace", "AmorWebSpaceController"]) →
      ∃ e, (AmorFactory.createController base controllerName cms).result = .error e) ∧
    (isAmorModel cms = false →
      (∃ e, (AmorFactory.createController base controllerName cms).result = .error e) ∧
      (AmorFactory.createController base controllerName cms).constructed = [] ∧
      (AmorFactory.createController base controllerName cms).postConstructCalls = []) ∧
    (∀ c, AmorFactory.newControllerNamed base controllerName cms = .ok c →
      instanceOf c.classChain "AmorAbstractController" = true) ∧
    (AmorFactory.createController base controllerName cms).constructed =
      (AmorFactory.createController base controllerName cms).postConstructCalls ∧
    ((∀ c, (base.runPostConstruct c).2 = .ok ()) →
      ((∃ e, (AmorFactory.createController base controllerName cms).result = .error e) →
        (isAmorModel cms = false ∨
          controllerName ∉ ["Api", "AmorApiController", "WebSpace", "AmorWebSpaceController"])) ∧
      (AmorFactory.createController base controllerName cms).result ≠
        .error (.amorError (.ofMessage
          ("Controller-creation failed. Controller name: " ++ controllerName)))) := by
  have hcases : isAmorModel cms = false ∨ isAmorModel cms = true := by
    cases isAmorModel cms <;> simp
  refine ⟨?_, ?_, newControllerNamed_instanceOf base controllerName cms,
    createController_constructed_eq_calls base controllerName cms, ?_⟩
  · intro h
    rcases hcases with hm | hm
    · exact ⟨_, by rw [createController_not_amorModel base controllerName cms hm,
        throwConstructed_eq]⟩
    · rcases h with h | h
      · rw [hm] at h; cases h
      · exact ⟨_, by rw [createController_unknown_name base controllerName cms hm h,
          throwConstructed_eq]⟩
  · intro hm
    rw [createController_not_amorModel base controllerName cms hm]
    exact ⟨⟨_, by rw [throwConstructed_eq]⟩, rfl, rfl⟩
  · intro hpost
    rcases hcases with hm | hm
    · refine ⟨fun _ => Or.inl hm, ?_⟩
      rw [createController_not_amorModel base controllerName cms hm, throwConstructed_eq]
      intro h
      cases h
    · by_cases hname :
          controllerName ∈ ["Api", "AmorApiController", "WebSpace", "AmorWebSpaceController"]
      · obtain ⟨c, hc⟩ := newControllerNamed_ok base controllerName cms hm hname
        have hres := createController_of_constructed base controllerName cms c hm hc
          (newControllerNamed_instanceOf base controllerName cms c hc) (hpost c)
        rw [hres]
        refine ⟨?_, ?_⟩
        · rintro ⟨e, he⟩
          cases he
        · intro h
          cases h
      · refine ⟨fun _ => Or.inr hname, ?_⟩
        rw [createController_unknown_name base controllerName cms hm hname, throwConstructed_eq]
        intro h
        cases h

theorem createController_fails_iff_witness :
    (∃ e, (AmorFactory.createController demoControllerClass "api" (some demoCms)).result
      = .error e) ∧
    ((∃ e, (AmorFactory.createController demoControllerClass "Api" none).result = .error e) ∧
      (AmorFactory.createController demoControllerClass "Api" none).constructed = [] ∧
      (AmorFactory.createController demoControllerClass "Api" none).postConstructCalls = []) ∧
    (AmorFactory.createController demoControllerClass "WebSpace" (some demoCms)).result ≠
      .error (.amorError (.ofMessage
        ("Controller-creation failed. Controller name: " ++ "WebSpace"))) :=
  ⟨(createController_fails_iff demoControllerClass "api" (some demoCms)).1
      (Or.inr (by decide)),
    (createController_fails_iff demoControllerClass "Api" none).2.1 rfl,
    ((createController_fails_iff demoControllerClass "WebSpace" (some demoCms)).2.2.2.2
      (fun _ => rfl)).2⟩

/-! ## AmorFactory.createAuthHandler and the factory constructor -/

theorem abstractAuthHandler_constructed (className : String) (controller : Option Controller)
    (hc : isAbstractController controller = true) :
    AmorAbstractAuthHandler.constructor className controller =
      .ok ⟨[className, "AmorAbstractAuthHandler", "Object"], controller, none⟩ := by
  simp [AmorAbstractAuthHandler.constructor, hc]

theorem createAuthHandler_ok_controller
    (createClient : Option String → Option String → Except JsError SupabaseClient)
    (authHandlerName : String) (controller : Option Controller) (h : AuthHandler)
    (hres : AmorFactory.createAuthHandler createClient authHandlerName controller = .ok h) :
    h.controller = controller := by
  unfold AmorFactory.createAuthHandler at hres
  by_cases hc : isAbstractController controller = true
  · simp only [hc, Bool.not_true, Bool.false_eq_true, if_false] at hres
    split_ifs at hres
    · rw [throwConstructed_eq] at hres
      cases hres
    · unfold AmorAuthHandler.constructor at hres
      rw [abstractAuthHandler_constructed _ _ hc] at hres
      injection hres with hres
      subst hres
      rfl
    · split at hres
      · split at hres
        · unfold SupabaseAuthHandler.constructor at hres
          rw [abstractAuthHandler_constructed _ _ hc] at hres
          injection hres with hres
          subst hres
          rfl
        · cases hres
      · cases hres
    · rw [throwConstructed_eq] at hres
      cases hres
  · simp only [hc, Bool.not_false, if_true] at hres
    rw [throwConstructed_eq] at hres
    cases hres

/-- What holds of createAuthHandler on the code: given a controller that is an
AmorAbstractController whose cms is an AmorModel, it returns an AmorAuthHandler for
"Standard", "Amor" and "AmorAuthHandler", a SupabaseAuthHandler holding the client for
"supabase" when createClient returns one, and fails for every other name; it fails for
every name when the controller is not an AmorAbstractController or its cms is not an
AmorModel; every handler it returns holds the controller passed in. -/
theorem createAuthHandler_by_name
    (createClient : Option String → Option String → Except JsError SupabaseClient)
    (authHandlerName : String) (controller : Option Controller) :
    (isAbstractController controller = true →
      isAmorModel (controller.bind Controller.cms) = true →
      (authHandlerName ∈ ["Standard", "Amor", "AmorAuthHandler"] →
        AmorFactory.createAuthHandler createClient authHandlerName controller =
          .ok ⟨["AmorAuthHandler", "AmorAbstractAuthHandler", "Object"], controller, none⟩) ∧
      (authHandlerName = "supabase" → ∀ cms client, controller.bind Controller.cms = some cms →
        createClient (cms.config.lookup "supabaseUrl") (cms.config.lookup "supabaseKey")
          = .ok client →
        AmorFactory.createAuthHandler createClient authHandlerName controller =
          .ok ⟨["SupabaseAuthHandler", "AmorAbstractAuthHandler", "Object"], controller,
            some client⟩) ∧
      (authHandlerName ∉ ["Standard", "Amor", "AmorAuthHandler", "supabase"] →
        AmorFactory.createAuthHandler createClient authHandlerName controller =
          .error (.referenceError AmorError.superNotCalled))) ∧
    ((isAbstractController controller = false ∨
        isAmorModel (controller.bind Controller.cms) = false) →
      AmorFactory.createAuthHandler createClient authHandlerName controller =
        .error (.referenceError AmorError.superNotCalled)) ∧
    (∀ h, AmorFactory.createAuthHandler createClient authHandlerName controller = .ok h →
      h.controller = controller) := by
  refine ⟨?_, ?_, createAuthHandler_ok_controller createClient authHandlerName controller⟩
  · intro hc hm
    refine ⟨?_, ?_, ?_⟩
    · intro hname
      simp only [List.mem_cons, List.mem_singleton, List.not_mem_nil, or_false] at hname
      simp [AmorFactory.createAuthHandler, hc, hm, hname, AmorAuthHandler.constructor,
        abstractAuthHandler_constructed _ _ hc]
    · intro hname cms client hcms hclient
      subst hname
      have hm' : isAmorModel (some cms) = true := by rw [← hcms]; exact hm
      simp [AmorFactory.createAuthHandler, hc, hm', hcms, hclient, SupabaseAuthHandler.constructor,
        abstractAuthHandler_constructed _ _ hc]
    · intro hname
      simp only [List.mem_cons, List.mem_singleton, List.not_mem_nil, or_false, not_or] at hname
      simp [AmorFactory.createAuthHandler, hc, hm, hname, throwConstructed_eq]
  · intro h
    by_cases hc : isAbstractController controller = true
    · rcases h with h | h
      · rw [hc] at h; cases h
      · simp [AmorFactory.createAuthHandler, hc, h, throwConstructed_eq]
    · simp [AmorFactory.createAuthHandler, hc, throwConstructed_eq]

/-- C14, the code at createAuthHandler("standard", controller) for a controller that is an
AmorAbstractController whose cms is an AmorModel: the name is none of the four, the
default branch reaches `throw new AmorError(...)`, and what is thrown is the
ReferenceError of the AmorError constructor; no AmorError, with the 'Unknown
authHandlerName' message or any other, is thrown. -/
theorem createAuthHandler_unknown_name_throws_referenceError :
    isAbstractController (some (demoController ⟨[], []⟩)) = true ∧
    isAmorModel ((some (demoController ⟨[], []⟩)).bind Controller.cms) = true ∧
    AmorFactory.createAuthHandler demoCreateClient "standard" (some (demoController ⟨[], []⟩)) =
      .error (.referenceError AmorError.superNotCalled) ∧
    AmorFactory.createAuthHandler demoCreateClient "standard" (some (demoController ⟨[], []⟩)) ≠
      .error (.amorError (.ofMessage ("Unknown authHandlerName : " ++ "standard"))) ∧
    ∀ e : AmorError,
      AmorFactory.createAuthHandler demoCreateClient "standard" (some (demoController ⟨[], []⟩)) ≠
        .error (.amorError e) := by
  have h : AmorFactory.createAuthHandler demoCreateClient "standard"
      (some (demoController ⟨[], []⟩)) = .error (.referenceError AmorError.superNotCalled) := by
    rfl
  refine ⟨rfl, rfl, h, ?_, ?_⟩
  · intro hne
    rw [h] at hne
    cases hne
  · intro e he
    rw [h] at he
    cases he

/-- C15: the constructor of AmorFactory throws an error on every call, whatever the
arguments, and never yields a factory instance. -/
theorem factory_constructor_always_fails (args : List Json) :
    (∃ e, AmorFactory.constructor args = .error e) ∧
      ∀ f : AmorFactory, AmorFactory.constructor args ≠ .ok f := by
  refine ⟨⟨_, rfl⟩, ?_⟩
  intro f h
  cases h

/-! ## The tables of a new AmorModel -/

/-- C16, the code at `new AmorModel()`: the constructor gives `data` the properties
other, currentPage and supportedLanguages only, so right after construction, and still
after `load`, whose body is empty, `data` has neither "mappings" nor "content", and
`Object.keys(amor.data["mappings"])` throws a TypeError instead of visiting nothing. -/
theorem newAmorModel_mappings_keys_throw :
    AmorModel.constructor.data.map Prod.fst = ["other", "currentPage", "supportedLanguages"] ∧
    AmorModel.constructor.data.lookup "mappings" = none ∧
    AmorModel.constructor.data.lookup "content" = none ∧
    AmorModel.constructor.tableKeys "mappings" =
      .error (.typeError "Cannot convert undefined or null to object") ∧
    AmorModel.constructor.tableKeys "mappings" ≠ .ok [] ∧
    (AmorModel.constructor.load ()).2 = .fulfilled () ∧
    (AmorModel.constructor.load ()).1.tableKeys "mappings" =
      .error (.typeError "Cannot convert undefined or null to object") := by
  refine ⟨rfl, rfl, rfl, rfl, ?_, rfl, rfl⟩
  intro h
  cases h

theorem newAmorModel_supportedLanguages_keys :
    AmorModel.constructor.tableKeys "supportedLanguages" = .ok ["___type"] :=
  rfl

/-! ## doMappingMappings on the base class -/

theorem forEachPathKey_base_run (keys : List String) (t : AmorAbstractTransformer)
    (calls : List (String × MappingsTable)) (m : Model) (hm : t.controller.model = some m) :
    AmorAbstractTransformer.forEachPathKey
      (fun t' pathKey mappings =>
        ((AmorAbstractTransformer.setMappedMappings t' pathKey mappings).1,
          .ok (AmorAbstractTransformer.setMappedMappings t' pathKey mappings).2))
      keys t calls = ⟨t, calls ++ keys.map (fun k => (k, m.mappings)), .ok ()⟩ := by
  induction keys generalizing calls with
  | nil => simp [AmorAbstractTransformer.forEachPathKey]
  | cons pathKey rest ih =>
    unfold AmorAbstractTransformer.forEachPathKey
    simp only [hm]
    have h := ih (calls ++ [(pathKey, m.mappings)])
    simpa [AmorAbstractTransformer.setMappedMappings] using h

theorem doMappingMappings_base_run (t : AmorAbstractTransformer)
    (objPathsForMappings : List (String × Json)) (locale : String) (m : Model)
    (hm : t.controller.model = some m) :
    t.doMappingMappings objPathsForMappings locale =
      ⟨t, objPathsForMappings.map (fun e => (e.1, m.mappings)), .fulfilled ()⟩ := by
  unfold AmorAbstractTransformer.doMappingMappings AmorAbstractTransformer.doMappingMappingsWith
  rw [forEachPathKey_base_run _ t [] m hm]
  simp [List.map_map, Function.comp_def]

/-- C17, the code on the base class for the keys "a" and "b": setMappedMappings fails
for "a" by returning a rejected promise, which the try/catch around the call does not
see, so doMappingMappings goes on to call it for "b" as well and its own promise
fulfils; it does not fail with TRANSFORMER_MAPPINGS_ERROR naming "a". -/
theorem doMappingMappings_base_does_not_fail :
    (∃ e, ((demoTransformer demoModel).setMappedMappings "a" demoModel.mappings).2 =
      .rejected e) ∧
    ((demoTransformer demoModel).doMappingMappings [("a", .null), ("b", .null)] "en").calls =
      [("a", demoModel.mappings), ("b", demoModel.mappings)] ∧
    ((demoTransformer demoModel).doMappingMappings [("a", .null), ("b", .null)] "en").result =
      .fulfilled () ∧
    ((demoTransformer demoModel).doMappingMappings [("a", .null), ("b", .null)] "en").result ≠
      .rejected (.amorError
        (.thrownNew .TRANSFORMER_MAPPINGS_ERROR ["a"] "AmorAbstractTransformer")) := by
  rw [doMappingMappings_base_run (demoTransformer demoModel) _ "en" demoModel rfl]
  exact ⟨⟨_, rfl⟩, rfl, rfl, by intro h; cases h⟩

/-! ## AmorModel.setAuthHandler -/

theorem createAuthHandler_fails_of_invalid
    (createClient : Option String → Option String → Except JsError SupabaseClient)
    (authHandlerName : String) (controller : Option Controller)
    (h : isAbstractController controller = false ∨
      isAmorModel (controller.bind Controller.cms) = false) :
    ∃ e, AmorFactory.createAuthHandler createClient authHandlerName controller = .error e := by
  by_cases hc : isAbstractController controller = true
  · rcases h with h | h
    · rw [hc] at h; cases h
    · exact ⟨_, by simp [AmorFactory.createAuthHandler, hc, h]; rfl⟩
  · exact ⟨_, by simp [AmorFactory.createAuthHandler, hc]; rfl⟩

theorem createAuthHandler_default
    (createClient : Option String → Option String → Except JsError SupabaseClient)
    (controller : Option Controller) (hc : isAbstractController controller = true)
    (hm : isAmorModel (controller.bind Controller.cms) = true) :
    AmorFactory.createAuthHandler createClient "AmorAuthHandler" controller =
      .ok ⟨["AmorAuthHandler", "AmorAbstractAuthHandler", "Object"], controller, none⟩ := by
  simp [AmorFactory.createAuthHandler, hc, hm, AmorAuthHandler.constructor,
    abstractAuthHandler_constructed _ _ hc]

/-- C18: when the configuration has an own property "authHandler", setAuthHandler stores
the handler the factory creates for that name on the model's current controller (and
rejects with the factory's error when it creates none); otherwise it stores the default
AmorAuthHandler built on that controller; it rejects, leaving the model as it was,
whenever the current controller is not an AmorAbstractController whose cms is an
AmorModel. -/
theorem setAuthHandler_by_config
    (createClient : Option String → Option String → Except JsError SupabaseClient)
    (m : AmorModel) :
    (∀ name, m.config.lookup "authHandler" = some name →
      (∀ h, AmorFactory.createAuthHandler createClient name m.controller = .ok h →
        AmorModel.setAuthHandler createClient m = ({ m with authHandler := some h }, .fulfilled ())
          ∧ h.controller = m.controller) ∧
      (∀ e, AmorFactory.createAuthHandler createClient name m.controller = .error e →
        AmorModel.setAuthHandler createClient m = (m, .rejected e))) ∧
    (m.config.lookup "authHandler" = none →
      isAbstractController m.controller = true →
      isAmorModel (m.controller.bind Controller.cms) = true →
      AmorModel.setAuthHandler createClient m =
        ({ m with
            authHandler := some ⟨["AmorAuthHandler", "AmorAbstractAuthHandler", "Object"], m.controller, none⟩ },
          .fulfilled ())) ∧
    ((isAbstractController m.controller = false ∨
        isAmorModel (m.controller.bind Controller.cms) = false) →
      ∃ e, AmorModel.setAuthHandler createClient m = (m, .rejected e)) := by
  refine ⟨?_, ?_, ?_⟩
  · intro name hname
    refine ⟨?_, ?_⟩
    · intro h hres
      refine ⟨?_, createAuthHandler_ok_controller createClient name m.controller h hres⟩
      simp [AmorModel.setAuthHandler, hname, AmorModel.getController, hres]
    · intro e hres
      simp [AmorModel.setAuthHandler, hname, AmorModel.getController, hres]
  · intro hnone hc hm
    simp [AmorModel.setAuthHandler, hnone, AmorModel.getController,
      createAuthHandler_default createClient m.controller hc hm]
  · intro hinv
    cases hcfg : m.config.lookup "authHandler" with
    | none =>
      obtain ⟨e, he⟩ := createAuthHandler_fails_of_invalid createClient "AmorAuthHandler"
        m.controller hinv
      exact ⟨e, by simp [AmorModel.setAuthHandler, hcfg, AmorModel.getController, he]⟩
    | some name =>
      obtain ⟨e, he⟩ := createAuthHandler_fails_of_invalid createClient name m.controller hinv
      exact ⟨e, by simp [AmorModel.setAuthHandler, hcfg, AmorModel.getController, he]⟩

theorem setAuthHandler_by_config_witness :
    (∃ e, AmorModel.setAuthHandler demoCreateClient AmorModel.constructor =
      (AmorModel.constructor, .rejected e)) ∧
    AmorModel.setAuthHandler demoCreateClient
        { AmorModel.constructor with controller := some (demoController ⟨[], []⟩) } =
      ({ AmorModel.constructor with
          controller := some (demoController ⟨[], []⟩)
          authHandler := some (demoAuthHandler (demoController ⟨[], []⟩)) }, .fulfilled ()) ∧
    AmorModel.setAuthHandler demoCreateClient
        { AmorModel.constructor with
          controller := some demoSupabaseController
          config := [("authHandler", "supabase")] } =
      ({ AmorModel.constructor with
          controller := some demoSupabaseController
          config := [("authHandler", "supabase")]
          authHandler := some ⟨["SupabaseAuthHandler", "AmorAbstractAuthHandler", "Object"],
            some demoSupabaseController,
            some ⟨some "https://demo.supabase.co", some "demo-key"⟩⟩ }, .fulfilled ()) :=
  ⟨(setAuthHandler_by_config demoCreateClient AmorModel.constructor).2.2 (Or.inl rfl),
    (setAuthHandler_by_config demoCreateClient
      { AmorModel.constructor with controller := some (demoController ⟨[], []⟩) }).2.1
      rfl rfl rfl,
    (((setAuthHandler_by_config demoCreateClient
      { AmorModel.constructor with
        controller := some demoSupabaseController
        config := [("authHandler", "supabase")] }).1 "supabase" rfl).1 _ rfl).1⟩

end Amor
